import Mathlib

/-!
The HIXL C facade (`monarch_hixl/src/hixl_c_wrapper.cpp`) and the HCCL bridge
(`hccl-sys/src/bridge.cpp`).

Shallow embedding.  The transfer engine `hixl::Hixl` is an external library: it is a
parameter of the embedding (a state type `E` with one transition function per engine
method, and the status constants of its header).  A C pointer is modelled by what the
facade does with it: a handle is a machine word (`0` is null) that is cast to the engine
object without further checks, a `const char*` is `Option String`, an output slot is
`Option Nat` (`none` is the null pointer, `some v` a slot that currently holds `v`), and a
descriptor array is a memory view `Nat → HixlOpDesc`.
-/

namespace MonarchHixl

/-! ## Data model (`hixl_c_wrapper.h`) -/

/-- The enum `HixlStatus`. -/
inductive HixlStatus where
  | HIXL_STATUS_SUCCESS
  | HIXL_STATUS_ERROR
  deriving DecidableEq, Repr

open HixlStatus

/-- Numeric value of a `HixlStatus` enumerator. -/
def HixlStatus.toInt : HixlStatus → Int
  | HIXL_STATUS_SUCCESS => 0
  | HIXL_STATUS_ERROR => 1

/-- Enumerator `HIXL_MEM_DEVICE` of `HixlMemType`. -/
def HIXL_MEM_DEVICE : Nat := 0
/-- Enumerator `HIXL_MEM_HOST` of `HixlMemType`. -/
def HIXL_MEM_HOST : Nat := 1
/-- Enumerator `HIXL_OP_READ` of `HixlOpType`. -/
def HIXL_OP_READ : Nat := 0
/-- Enumerator `HIXL_OP_WRITE` of `HixlOpType`. -/
def HIXL_OP_WRITE : Nat := 1

/-- The struct `HixlOpDesc`. -/
structure HixlOpDesc where
  local_addr : Nat
  remote_addr : Nat
  len : Nat
  deriving DecidableEq, Repr

/-! ## The engine interface consumed by the facade (`hixl/hixl.h`, external) -/

/-- The engine's `MemDesc`, with the two fields the facade fills in. -/
structure MemDesc where
  addr : Nat
  len : Nat
  deriving DecidableEq, Repr

/-- The engine's memory kinds named by the facade. -/
inductive MemType where
  | MEM_DEVICE
  | MEM_HOST
  deriving DecidableEq, Repr

/-- The engine's operation kinds named by the facade. -/
inductive TransferOp where
  | READ
  | WRITE
  deriving DecidableEq, Repr

/-- The engine's `TransferOpDesc`. -/
structure TransferOpDesc where
  local_addr : Nat
  remote_addr : Nat
  len : Nat
  deriving DecidableEq, Repr

/-- One call made on the engine object, with the arguments the facade passed. -/
inductive EngineCall where
  | Initialize (local_engine : String) (options : List (String × String))
  | Finalize
  | RegisterMem (desc : MemDesc) (mtype : MemType)
  | DeregisterMem (mem_handle : Nat)
  | Connect (remote_engine : String) (timeout_ms : Int)
  | Disconnect (remote_engine : String) (timeout_ms : Int)
  | TransferAsync (remote_engine : String) (top : TransferOp) (ops : List TransferOpDesc)
  | GetTransferStatus (req : Nat)
  deriving DecidableEq, Repr

/-- The status constants of the engine header that the facade compares against.
Engine statuses and transfer statuses are integers; the header fixes their values. -/
structure HixlCodes where
  SUCCESS : Int
  ALREADY_CONNECTED : Int
  NOT_CONNECTED : Int
  COMPLETED : Int
  WAITING : Int
  FAILED : Int
  TIMEOUT : Int
  deriving DecidableEq, Repr

/-- The named engine statuses are pairwise different, and so are the four named
transfer statuses (they are distinct enumerators of the header). -/
def HixlCodes.Distinct (c : HixlCodes) : Prop :=
  c.SUCCESS ≠ c.ALREADY_CONNECTED ∧ c.SUCCESS ≠ c.NOT_CONNECTED ∧
  c.ALREADY_CONNECTED ≠ c.NOT_CONNECTED ∧
  c.COMPLETED ≠ c.WAITING ∧ c.COMPLETED ≠ c.FAILED ∧ c.COMPLETED ≠ c.TIMEOUT ∧
  c.WAITING ≠ c.FAILED ∧ c.WAITING ≠ c.TIMEOUT ∧ c.FAILED ≠ c.TIMEOUT

instance (c : HixlCodes) : Decidable c.Distinct := by
  unfold HixlCodes.Distinct; infer_instance

/-- The class `hixl::Hixl` as the facade uses it: every method takes the object state and
returns the status, the values written through its reference parameters, and the new
object state. -/
structure Hixl (E : Type) where
  codes : HixlCodes
  Initialize : E → String → List (String × String) → Int × E
  Finalize : E → E
  RegisterMem : E → MemDesc → MemType → Int × Nat × E
  DeregisterMem : E → Nat → Int × E
  Connect : E → String → Int → Int × E
  Disconnect : E → String → Int → Int × E
  TransferAsync : E → String → TransferOp → List TransferOpDesc → Int × Nat × E
  GetTransferStatus : E → Nat → Int × Int × E

/-! ## Program state -/

/-- What the facade reads and writes: the engine object behind a non-null handle, whether
that object is still allocated, the calls made on it so far (oldest first), and the
thread-local `g_last_error`. -/
structure World (E : Type) where
  engine : E
  live : Bool
  calls : List EngineCall
  g_last_error : String

/-- The result of a facade function without output parameter. -/
structure Ret (E : Type) (α : Type) where
  value : α
  world : World E

/-- The result of a facade function with an output slot: `slot` is the content of the slot
behind the output pointer after the call (`none` when the pointer is null). -/
structure OutRet (E : Type) where
  value : HixlStatus
  slot : Option Nat
  world : World E

/-- The decimal rendering `std::to_string` of an integer status. -/
def to_string (status : Int) : String := toString status

/-! ## The facade (`hixl_c_wrapper.cpp`) -/

/-- The function `hixl_get_error_msg`. -/
def hixl_get_error_msg {E : Type} (w : World E) : String :=
  w.g_last_error

/-- The function `hixl_check_transfer_status`. -/
def hixl_check_transfer_status {E : Type} (eng : Hixl E) (w : World E)
    (handle : Nat) (req : Nat) : Ret E Int :=
  if handle = 0 then ⟨-1, w⟩
  else
    let r := eng.GetTransferStatus w.engine req
    let res := r.1
    let status := r.2.1
    let w1 : World E :=
      { w with engine := r.2.2, calls := w.calls ++ [EngineCall.GetTransferStatus req] }
    if res ≠ eng.codes.SUCCESS then
      ⟨-1, { w1 with
        g_last_error := "GetTransferStatus failed with status: " ++ to_string res }⟩
    else if status = eng.codes.COMPLETED then ⟨0, w1⟩
    else if status = eng.codes.WAITING then ⟨1, w1⟩
    else if status = eng.codes.FAILED then ⟨-2, w1⟩
    else if status = eng.codes.TIMEOUT then ⟨-3, w1⟩
    else ⟨-1, w1⟩

/-- The function `hixl_destroy`: `delete` on a non-null handle. -/
def hixl_destroy {E : Type} (w : World E) (handle : Nat) : World E :=
  if handle ≠ 0 then { w with live := false } else w

/-- The function `hixl_initialize`; the options map passed to the engine is empty. -/
def hixl_initialize {E : Type} (eng : Hixl E) (w : World E)
    (handle : Nat) (local_engine : Option String) : Ret E HixlStatus :=
  match local_engine with
  | none => ⟨HIXL_STATUS_ERROR, w⟩
  | some name =>
    if handle = 0 then ⟨HIXL_STATUS_ERROR, w⟩
    else
      let r := eng.Initialize w.engine name []
      let status := r.1
      let w1 : World E :=
        { w with engine := r.2, calls := w.calls ++ [EngineCall.Initialize name []] }
      if status ≠ eng.codes.SUCCESS then
        ⟨HIXL_STATUS_ERROR, { w1 with
          g_last_error := "Initialize failed with status: " ++ to_string status }⟩
      else ⟨HIXL_STATUS_SUCCESS, w1⟩

/-- The function `hixl_finalize`. -/
def hixl_finalize {E : Type} (eng : Hixl E) (w : World E) (handle : Nat) : World E :=
  if handle ≠ 0 then
    { w with engine := eng.Finalize w.engine, calls := w.calls ++ [EngineCall.Finalize] }
  else w

/-- The function `hixl_register_mem`. -/
def hixl_register_mem {E : Type} (eng : Hixl E) (w : World E)
    (handle : Nat) (addr : Nat) (len : Nat) (type : Nat) (out_handle : Option Nat) :
    OutRet E :=
  if handle = 0 ∨ out_handle = none then ⟨HIXL_STATUS_ERROR, out_handle, w⟩
  else
    let desc : MemDesc := { addr := addr, len := len }
    let mtype := if type = HIXL_MEM_DEVICE then MemType.MEM_DEVICE else MemType.MEM_HOST
    let r := eng.RegisterMem w.engine desc mtype
    let status := r.1
    let mhandle := r.2.1
    let w1 : World E :=
      { w with engine := r.2.2, calls := w.calls ++ [EngineCall.RegisterMem desc mtype] }
    if status ≠ eng.codes.SUCCESS then
      ⟨HIXL_STATUS_ERROR, out_handle, { w1 with
        g_last_error := "RegisterMem failed with status: " ++ to_string status }⟩
    else ⟨HIXL_STATUS_SUCCESS, some mhandle, w1⟩

/-- The function `hixl_deregister_mem`. -/
def hixl_deregister_mem {E : Type} (eng : Hixl E) (w : World E)
    (handle : Nat) (mem_handle : Nat) : Ret E HixlStatus :=
  if handle = 0 then ⟨HIXL_STATUS_ERROR, w⟩
  else
    let r := eng.DeregisterMem w.engine mem_handle
    let status := r.1
    let w1 : World E :=
      { w with engine := r.2, calls := w.calls ++ [EngineCall.DeregisterMem mem_handle] }
    if status ≠ eng.codes.SUCCESS then
      ⟨HIXL_STATUS_ERROR, { w1 with
        g_last_error := "DeregisterMem failed with status: " ++ to_string status }⟩
    else ⟨HIXL_STATUS_SUCCESS, w1⟩

/-- The function `hixl_connect`. -/
def hixl_connect {E : Type} (eng : Hixl E) (w : World E)
    (handle : Nat) (remote_engine : Option String) (timeout_ms : Int) : Ret E HixlStatus :=
  match remote_engine with
  | none => ⟨HIXL_STATUS_ERROR, w⟩
  | some name =>
    if handle = 0 then ⟨HIXL_STATUS_ERROR, w⟩
    else
      let r := eng.Connect w.engine name timeout_ms
      let status := r.1
      let w1 : World E :=
        { w with engine := r.2, calls := w.calls ++ [EngineCall.Connect name timeout_ms] }
      if status ≠ eng.codes.SUCCESS ∧ status ≠ eng.codes.ALREADY_CONNECTED then
        ⟨HIXL_STATUS_ERROR, { w1 with
          g_last_error := "Connect failed with status: " ++ to_string status }⟩
      else ⟨HIXL_STATUS_SUCCESS, w1⟩

/-- The function `hixl_disconnect`. -/
def hixl_disconnect {E : Type} (eng : Hixl E) (w : World E)
    (handle : Nat) (remote_engine : Option String) (timeout_ms : Int) : Ret E HixlStatus :=
  match remote_engine with
  | none => ⟨HIXL_STATUS_ERROR, w⟩
  | some name =>
    if handle = 0 then ⟨HIXL_STATUS_ERROR, w⟩
    else
      let r := eng.Disconnect w.engine name timeout_ms
      let status := r.1
      let w1 : World E :=
        { w with engine := r.2, calls := w.calls ++ [EngineCall.Disconnect name timeout_ms] }
      if status ≠ eng.codes.SUCCESS ∧ status ≠ eng.codes.NOT_CONNECTED then
        ⟨HIXL_STATUS_ERROR, { w1 with
          g_last_error := "Disconnect failed with status: " ++ to_string status }⟩
      else ⟨HIXL_STATUS_SUCCESS, w1⟩

/-- The loop of `hixl_transfer_async`: `remaining` iterations are left, `i` is the loop
index and `ops` the vector built so far; every iteration pushes a copy of
`descriptors[i]` to the back of `ops`. -/
def transfer_ops_loop (descriptors : Nat → HixlOpDesc) :
    (remaining : Nat) → (i : Nat) → (ops : List TransferOpDesc) → List TransferOpDesc
  | 0, _, ops => ops
  | remaining + 1, i, ops =>
    let d : TransferOpDesc :=
      { local_addr := (descriptors i).local_addr
        remote_addr := (descriptors i).remote_addr
        len := (descriptors i).len }
    transfer_ops_loop descriptors remaining (i + 1) (ops ++ [d])

/-- The function `hixl_transfer_async`; the transfer arguments passed to the engine are
the default-constructed ones. -/
def hixl_transfer_async {E : Type} (eng : Hixl E) (w : World E)
    (handle : Nat) (remote_engine : Option String) (op : Nat)
    (descriptors : Option (Nat → HixlOpDesc)) (desc_count : Nat) (out_req : Option Nat) :
    OutRet E :=
  match remote_engine, descriptors with
  | some name, some descs =>
    if handle = 0 ∨ out_req = none then ⟨HIXL_STATUS_ERROR, out_req, w⟩
    else
      let ops := transfer_ops_loop descs desc_count 0 []
      let top := if op = HIXL_OP_READ then TransferOp.READ else TransferOp.WRITE
      let r := eng.TransferAsync w.engine name top ops
      let status := r.1
      let req := r.2.1
      let w1 : World E :=
        { w with engine := r.2.2, calls := w.calls ++ [EngineCall.TransferAsync name top ops] }
      if status ≠ eng.codes.SUCCESS then
        ⟨HIXL_STATUS_ERROR, out_req, { w1 with
          g_last_error := "TransferAsync failed with status: " ++ to_string status }⟩
      else ⟨HIXL_STATUS_SUCCESS, some req, w1⟩
  | _, _ => ⟨HIXL_STATUS_ERROR, out_req, w⟩

/-! ## Concrete engines used to evaluate the facade -/

/-- State of the simulated engine: the connected remote names and the number of status
polls answered so far. -/
structure SimState where
  connected : List String
  polls : Nat
  deriving DecidableEq, Repr

/-- Status constants of the simulated engine. -/
def simCodes : HixlCodes :=
  { SUCCESS := 0, ALREADY_CONNECTED := 103903, NOT_CONNECTED := 103902,
    COMPLETED := 1, WAITING := 0, FAILED := 3, TIMEOUT := 2 }

/-- A small engine: connections are tracked by name, a non-positive timeout times out
(status 103901), empty names and zero handles are invalid parameters (status 103900), and
a transfer completes at the third poll. -/
def simEngine : Hixl SimState where
  codes := simCodes
  Initialize := fun e name _ => if name = "" then (103900, e) else (0, e)
  Finalize := fun _ => { connected := [], polls := 0 }
  RegisterMem := fun e desc _ => if desc.len = 0 then (103900, 0, e) else (0, desc.addr + 1, e)
  DeregisterMem := fun e h => if h = 0 then (103900, e) else (0, e)
  Connect := fun e name t =>
    if name ∈ e.connected then (103903, e)
    else if t ≤ 0 then (103901, e)
    else (0, { e with connected := name :: e.connected })
  Disconnect := fun e name _ =>
    if name ∈ e.connected then (0, { e with connected := e.connected.erase name })
    else (103902, e)
  TransferAsync := fun e name _ ops =>
    if name ∈ e.connected then (0, ops.length + 1, e) else (103902, 0, e)
  GetTransferStatus := fun e req =>
    if req = 0 then (103900, 0, e)
    else if e.polls < 2 then (0, 0, { e with polls := e.polls + 1 })
    else (0, 1, e)

/-- An engine whose status query alternates between COMPLETED and WAITING. -/
def flipEngine : Hixl SimState :=
  { simEngine with
    GetTransferStatus := fun e _ =>
      if e.polls % 2 = 0 then (0, 1, { e with polls := e.polls + 1 })
      else (0, 0, { e with polls := e.polls + 1 }) }

/-- An engine whose status query always succeeds and reports FAILED for request 1,
TIMEOUT for request 2 and the unnamed status 9 for every other request. -/
def failEngine : Hixl SimState :=
  { simEngine with
    GetTransferStatus := fun e req =>
      if req = 1 then (0, 3, e) else if req = 2 then (0, 2, e) else (0, 9, e) }

/-- A world of the simulated engine with no call made yet and the error channel of a
fresh thread. -/
def simWorld (connected : List String) : World SimState :=
  { engine := { connected := connected, polls := 0 }, live := true, calls := [],
    g_last_error := "" }

/-- A descriptor array in memory: element `i` is `(0x1000 + i, 0x2000 + i, 16)`. -/
def simDescs : Nat → HixlOpDesc :=
  fun i => { local_addr := 4096 + i, remote_addr := 8192 + i, len := 16 }

/-- The world after `n` consecutive `hixl_check_transfer_status` calls on the same
request. -/
def poll_world {E : Type} (eng : Hixl E) (handle req : Nat) : Nat → World E → World E
  | 0, w => w
  | n + 1, w => poll_world eng handle req n (hixl_check_transfer_status eng w handle req).world

/-- The value returned by call number `n` (counted from 0) of a sequence of consecutive
`hixl_check_transfer_status` calls on the same request. -/
def poll_value {E : Type} (eng : Hixl E) (handle req : Nat) (n : Nat) (w : World E) : Int :=
  (hixl_check_transfer_status eng (poll_world eng handle req n w) handle req).value

end MonarchHixl

/-! ## The HCCL bridge (`hccl-sys/src/bridge.cpp`) -/

namespace HcclSys

/-- The two result codes of `hccl_types.h` that the bridge names. -/
structure HcclCodes where
  HCCL_SUCCESS : Int
  HCCL_E_INTERNAL : Int
  deriving DecidableEq, Repr

/-- The flag `RTLD_LAZY` of `dlfcn.h`. -/
def RTLD_LAZY : Nat := 1
/-- The flag `RTLD_NOLOAD` of `dlfcn.h`. -/
def RTLD_NOLOAD : Nat := 4

/-- The dynamic loader and the loaded code as the bridge sees them: `dlopen` and `dlsym`
return addresses (`0` is null), `invoke fp args` is the result of calling the function at
address `fp` with the argument words `args`, and `invoke_str` is the same for a function
that returns a C string. -/
structure Loader where
  codes : HcclCodes
  dlopen : String → Nat → Nat
  dlsym : Nat → String → Nat
  invoke : Nat → List Int → Int
  invoke_str : Nat → List Int → String

/-- The struct `HcclAPI`: one function pointer per entry and the load result. -/
structure HcclAPI where
  HcclCommInitClusterInfo_ : Nat
  HcclCommInitAll_ : Nat
  HcclGetRootInfo_ : Nat
  HcclCommInitRootInfo_ : Nat
  HcclCommDestroy_ : Nat
  HcclGetRankSize_ : Nat
  HcclGetRankId_ : Nat
  HcclAllReduce_ : Nat
  HcclBroadcast_ : Nat
  HcclAllGather_ : Nat
  HcclReduceScatter_ : Nat
  HcclReduce_ : Nat
  HcclAlltoAll_ : Nat
  HcclAlltoAllV_ : Nat
  HcclSend_ : Nat
  HcclRecv_ : Nat
  HcclBarrier_ : Nat
  HcclGetCommAsyncError_ : Nat
  HcclGetErrorString_ : Nat
  init_result_ : Int
  deriving DecidableEq, Repr

/-- The value-initialised table `HcclAPI r{}`: every pointer is null. -/
def HcclAPI.zero : HcclAPI :=
  { HcclCommInitClusterInfo_ := 0,
    HcclCommInitAll_ := 0,
    HcclGetRootInfo_ := 0,
    HcclCommInitRootInfo_ := 0,
    HcclCommDestroy_ := 0,
    HcclGetRankSize_ := 0,
    HcclGetRankId_ := 0,
    HcclAllReduce_ := 0,
    HcclBroadcast_ := 0,
    HcclAllGather_ := 0,
    HcclReduceScatter_ := 0,
    HcclReduce_ := 0,
    HcclAlltoAll_ := 0,
    HcclAlltoAllV_ := 0,
    HcclSend_ := 0,
    HcclRecv_ := 0,
    HcclBarrier_ := 0,
    HcclGetCommAsyncError_ := 0,
    HcclGetErrorString_ := 0,
    init_result_ := 0 }

/-- The function pointers of a table, in declaration order. -/
def HcclAPI.pointers (r : HcclAPI) : List Nat :=
  [r.HcclCommInitClusterInfo_,
   r.HcclCommInitAll_,
   r.HcclGetRootInfo_,
   r.HcclCommInitRootInfo_,
   r.HcclCommDestroy_,
   r.HcclGetRankSize_,
   r.HcclGetRankId_,
   r.HcclAllReduce_,
   r.HcclBroadcast_,
   r.HcclAllGather_,
   r.HcclReduceScatter_,
   r.HcclReduce_,
   r.HcclAlltoAll_,
   r.HcclAlltoAllV_,
   r.HcclSend_,
   r.HcclRecv_,
   r.HcclBarrier_,
   r.HcclGetCommAsyncError_,
   r.HcclGetErrorString_]

/-- The entry names looked up by `create_hccl_api`, in lookup order. -/
def hccl_entries : List String :=
  ["HcclCommInitClusterInfo",
   "HcclCommInitAll",
   "HcclGetRootInfo",
   "HcclCommInitRootInfo",
   "HcclCommDestroy",
   "HcclGetRankSize",
   "HcclGetRankId",
   "HcclAllReduce",
   "HcclBroadcast",
   "HcclAllGather",
   "HcclReduceScatter",
   "HcclReduce",
   "HcclAlltoAll",
   "HcclAlltoAllV",
   "HcclSend",
   "HcclRecv",
   "HcclBarrier",
   "HcclGetCommAsyncError",
   "HcclGetErrorString"]

/-- The three `dlopen` attempts at the start of `create_hccl_api`: the library already
loaded, then by name, then by its path in the toolkit; the result is null when all
fail. -/
def open_libhccl (ld : Loader) : Nat :=
  let handle := ld.dlopen "libhccl.so" (RTLD_LAZY ||| RTLD_NOLOAD)
  let handle := if handle = 0 then ld.dlopen "libhccl.so" RTLD_LAZY else handle
  let handle :=
    if handle = 0 then
      ld.dlopen "/usr/local/Ascend/ascend-toolkit/latest/lib64/libhccl.so" RTLD_LAZY
    else handle
  handle

/-- The macro `LOOKUP_HCCL_ENTRY(name)` inside `create_hccl_api`: `store` assigns the
address found by `dlsym(handle, "name")` to the field `name_` of the table; when that
address is null the table is returned at once with `init_result_ = HCCL_E_INTERNAL`,
otherwise the rest of the function body `rest` runs on the updated table. -/
def LOOKUP_HCCL_ENTRY (ld : Loader) (handle : Nat) (name : String)
    (store : Nat → HcclAPI) (rest : HcclAPI → HcclAPI) : HcclAPI :=
  let r := store (ld.dlsym handle name)
  if ld.dlsym handle name = 0 then { r with init_result_ := ld.codes.HCCL_E_INTERNAL }
  else rest r

/-- The function `create_hccl_api`. -/
def create_hccl_api (ld : Loader) : HcclAPI :=
  let r0 : HcclAPI := { HcclAPI.zero with init_result_ := ld.codes.HCCL_SUCCESS }
  let handle := open_libhccl ld
  if handle = 0 then { r0 with init_result_ := ld.codes.HCCL_E_INTERNAL }
  else
  LOOKUP_HCCL_ENTRY ld handle "HcclCommInitClusterInfo"
    (fun p => { r0 with HcclCommInitClusterInfo_ := p }) fun r1 =>
  LOOKUP_HCCL_ENTRY ld handle "HcclCommInitAll"
    (fun p => { r1 with HcclCommInitAll_ := p }) fun r2 =>
  LOOKUP_HCCL_ENTRY ld handle "HcclGetRootInfo"
    (fun p => { r2 with HcclGetRootInfo_ := p }) fun r3 =>
  LOOKUP_HCCL_ENTRY ld handle "HcclCommInitRootInfo"
    (fun p => { r3 with HcclCommInitRootInfo_ := p }) fun r4 =>
  LOOKUP_HCCL_ENTRY ld handle "HcclCommDestroy"
    (fun p => { r4 with HcclCommDestroy_ := p }) fun r5 =>
  LOOKUP_HCCL_ENTRY ld handle "HcclGetRankSize"
    (fun p => { r5 with HcclGetRankSize_ := p }) fun r6 =>
  LOOKUP_HCCL_ENTRY ld handle "HcclGetRankId"
    (fun p => { r6 with HcclGetRankId_ := p }) fun r7 =>
  LOOKUP_HCCL_ENTRY ld handle "HcclAllReduce"
    (fun p => { r7 with HcclAllReduce_ := p }) fun r8 =>
  LOOKUP_HCCL_ENTRY ld handle "HcclBroadcast"
    (fun p => { r8 with HcclBroadcast_ := p }) fun r9 =>
  LOOKUP_HCCL_ENTRY ld handle "HcclAllGather"
    (fun p => { r9 with HcclAllGather_ := p }) fun r10 =>
  LOOKUP_HCCL_ENTRY ld handle "HcclReduceScatter"
    (fun p => { r10 with HcclReduceScatter_ := p }) fun r11 =>
  LOOKUP_HCCL_ENTRY ld handle "HcclReduce"
    (fun p => { r11 with HcclReduce_ := p }) fun r12 =>
  LOOKUP_HCCL_ENTRY ld handle "HcclAlltoAll"
    (fun p => { r12 with HcclAlltoAll_ := p }) fun r13 =>
  LOOKUP_HCCL_ENTRY ld handle "HcclAlltoAllV"
    (fun p => { r13 with HcclAlltoAllV_ := p }) fun r14 =>
  LOOKUP_HCCL_ENTRY ld handle "HcclSend"
    (fun p => { r14 with HcclSend_ := p }) fun r15 =>
  LOOKUP_HCCL_ENTRY ld handle "HcclRecv"
    (fun p => { r15 with HcclRecv_ := p }) fun r16 =>
  LOOKUP_HCCL_ENTRY ld handle "HcclBarrier"
    (fun p => { r16 with HcclBarrier_ := p }) fun r17 =>
  LOOKUP_HCCL_ENTRY ld handle "HcclGetCommAsyncError"
    (fun p => { r17 with HcclGetCommAsyncError_ := p }) fun r18 =>
  LOOKUP_HCCL_ENTRY ld handle "HcclGetErrorString"
    (fun p => { r18 with HcclGetErrorString_ := p }) fun r19 =>
  r19

/-- The function `HcclAPI::get`: the table built by `create_hccl_api` at first use. -/
def HcclAPI.get (ld : Loader) : HcclAPI :=
  create_hccl_api ld

/-- How a wrapper ended: it returned `r` without calling through a function pointer, it
called the function at the non-null address `fp` with `args` and returned its result `r`,
or it called through a null function pointer. -/
inductive Forward (α : Type) where
  | returned (r : α)
  | called (fp : Nat) (args : List Int) (r : α)
  | null_call
  deriving DecidableEq, Repr

/-- A call through the function pointer `fp`. -/
def call_through (ld : Loader) (fp : Nat) (args : List Int) : Forward Int :=
  if fp = 0 then Forward.null_call else Forward.called fp args (ld.invoke fp args)

/-- The wrapper `HcclCommInitClusterInfo`. -/
def HcclCommInitClusterInfo (ld : Loader) (clusterInfo rank comm : Int) : Forward Int :=
  let api := HcclAPI.get ld
  if api.init_result_ ≠ ld.codes.HCCL_SUCCESS then Forward.returned api.init_result_
  else call_through ld api.HcclCommInitClusterInfo_ [clusterInfo, rank, comm]

/-- The wrapper `HcclCommInitAll`. -/
def HcclCommInitAll (ld : Loader) (ndev devices comms : Int) : Forward Int :=
  let api := HcclAPI.get ld
  if api.init_result_ ≠ ld.codes.HCCL_SUCCESS then Forward.returned api.init_result_
  else call_through ld api.HcclCommInitAll_ [ndev, devices, comms]

/-- The wrapper `HcclGetRootInfo`. -/
def HcclGetRootInfo (ld : Loader) (rootInfo : Int) : Forward Int :=
  let api := HcclAPI.get ld
  if api.init_result_ ≠ ld.codes.HCCL_SUCCESS then Forward.returned api.init_result_
  else call_through ld api.HcclGetRootInfo_ [rootInfo]

/-- The wrapper `HcclCommInitRootInfo`. -/
def HcclCommInitRootInfo (ld : Loader) (nRanks rootInfo rank comm : Int) : Forward Int :=
  let api := HcclAPI.get ld
  if api.init_result_ ≠ ld.codes.HCCL_SUCCESS then Forward.returned api.init_result_
  else call_through ld api.HcclCommInitRootInfo_ [nRanks, rootInfo, rank, comm]

/-- The wrapper `HcclCommDestroy`. -/
def HcclCommDestroy (ld : Loader) (comm : Int) : Forward Int :=
  let api := HcclAPI.get ld
  if api.init_result_ ≠ ld.codes.HCCL_SUCCESS then Forward.returned api.init_result_
  else call_through ld api.HcclCommDestroy_ [comm]

/-- The wrapper `HcclGetRankSize`. -/
def HcclGetRankSize (ld : Loader) (comm rankSize : Int) : Forward Int :=
  let api := HcclAPI.get ld
  if api.init_result_ ≠ ld.codes.HCCL_SUCCESS then Forward.returned api.init_result_
  else call_through ld api.HcclGetRankSize_ [comm, rankSize]

/-- The wrapper `HcclGetRankId`. -/
def HcclGetRankId (ld : Loader) (comm rank : Int) : Forward Int :=
  let api := HcclAPI.get ld
  if api.init_result_ ≠ ld.codes.HCCL_SUCCESS then Forward.returned api.init_result_
  else call_through ld api.HcclGetRankId_ [comm, rank]

/-- The wrapper `HcclAllReduce`. -/
def HcclAllReduce (ld : Loader) (sendBuf recvBuf count dataType op comm stream : Int) : Forward Int :=
  let api := HcclAPI.get ld
  if api.init_result_ ≠ ld.codes.HCCL_SUCCESS then Forward.returned api.init_result_
  else call_through ld api.HcclAllReduce_ [sendBuf, recvBuf, count, dataType, op, comm, stream]

/-- The wrapper `HcclBroadcast`. -/
def HcclBroadcast (ld : Loader) (buf count dataType root comm stream : Int) : Forward Int :=
  let api := HcclAPI.get ld
  if api.init_result_ ≠ ld.codes.HCCL_SUCCESS then Forward.returned api.init_result_
  else call_through ld api.HcclBroadcast_ [buf, count, dataType, root, comm, stream]

/-- The wrapper `HcclAllGather`. -/
def HcclAllGather (ld : Loader) (sendBuf recvBuf sendCount dataType comm stream : Int) : Forward Int :=
  let api := HcclAPI.get ld
  if api.init_result_ ≠ ld.codes.HCCL_SUCCESS then Forward.returned api.init_result_
  else call_through ld api.HcclAllGather_ [sendBuf, recvBuf, sendCount, dataType, comm, stream]

/-- The wrapper `HcclReduceScatter`. -/
def HcclReduceScatter (ld : Loader) (sendBuf recvBuf recvCount dataType op comm stream : Int) : Forward Int :=
  let api := HcclAPI.get ld
  if api.init_result_ ≠ ld.codes.HCCL_SUCCESS then Forward.returned api.init_result_
  else call_through ld api.HcclReduceScatter_ [sendBuf, recvBuf, recvCount, dataType, op, comm, stream]

/-- The wrapper `HcclReduce`. -/
def HcclReduce (ld : Loader) (sendBuf recvBuf count dataType op root comm stream : Int) : Forward Int :=
  let api := HcclAPI.get ld
  if api.init_result_ ≠ ld.codes.HCCL_SUCCESS then Forward.returned api.init_result_
  else call_through ld api.HcclReduce_ [sendBuf, recvBuf, count, dataType, op, root, comm, stream]

/-- The wrapper `HcclAlltoAll`. -/
def HcclAlltoAll (ld : Loader) (sendBuf sendCount sendType recvBuf recvCount recvType comm stream : Int) : Forward Int :=
  let api := HcclAPI.get ld
  if api.init_result_ ≠ ld.codes.HCCL_SUCCESS then Forward.returned api.init_result_
  else call_through ld api.HcclAlltoAll_ [sendBuf, sendCount, sendType, recvBuf, recvCount, recvType, comm, stream]

/-- The wrapper `HcclAlltoAllV`. -/
def HcclAlltoAllV (ld : Loader) (sendBuf sendCounts sdispls sendType recvBuf recvCounts rdispls recvType comm stream : Int) : Forward Int :=
  let api := HcclAPI.get ld
  if api.init_result_ ≠ ld.codes.HCCL_SUCCESS then Forward.returned api.init_result_
  else call_through ld api.HcclAlltoAllV_ [sendBuf, sendCounts, sdispls, sendType, recvBuf, recvCounts, rdispls, recvType, comm, stream]

/-- The wrapper `HcclSend`. -/
def HcclSend (ld : Loader) (sendBuf count dataType destRank comm stream : Int) : Forward Int :=
  let api := HcclAPI.get ld
  if api.init_result_ ≠ ld.codes.HCCL_SUCCESS then Forward.returned api.init_result_
  else call_through ld api.HcclSend_ [sendBuf, count, dataType, destRank, comm, stream]

/-- The wrapper `HcclRecv`. -/
def HcclRecv (ld : Loader) (recvBuf count dataType srcRank comm stream : Int) : Forward Int :=
  let api := HcclAPI.get ld
  if api.init_result_ ≠ ld.codes.HCCL_SUCCESS then Forward.returned api.init_result_
  else call_through ld api.HcclRecv_ [recvBuf, count, dataType, srcRank, comm, stream]

/-- The wrapper `HcclBarrier`. -/
def HcclBarrier (ld : Loader) (comm stream : Int) : Forward Int :=
  let api := HcclAPI.get ld
  if api.init_result_ ≠ ld.codes.HCCL_SUCCESS then Forward.returned api.init_result_
  else call_through ld api.HcclBarrier_ [comm, stream]

/-- The wrapper `HcclGetCommAsyncError`. -/
def HcclGetCommAsyncError (ld : Loader) (comm asyncError : Int) : Forward Int :=
  let api := HcclAPI.get ld
  if api.init_result_ ≠ ld.codes.HCCL_SUCCESS then Forward.returned api.init_result_
  else call_through ld api.HcclGetCommAsyncError_ [comm, asyncError]

/-- The wrapper `HcclGetErrorString`. -/
def HcclGetErrorString (ld : Loader) (code : Int) : Forward String :=
  let api := HcclAPI.get ld
  if api.init_result_ ≠ ld.codes.HCCL_SUCCESS then
    Forward.returned "HCCL library not initialized"
  else if api.HcclGetErrorString_ = 0 then Forward.null_call
  else Forward.called api.HcclGetErrorString_ [code]
    (ld.invoke_str api.HcclGetErrorString_ [code])

/-- What a wrapper guarded by `GET_HCCL_API` may do: return `HCCL_E_INTERNAL` without
calling through, or call the non-null pointer that `dlsym` resolved for `name` and return
its result. -/
def Guarded (ld : Loader) (name : String) (fp : Nat) (args : List Int)
    (o : Forward Int) : Prop :=
  o = Forward.returned ld.codes.HCCL_E_INTERNAL ∨
    (fp ≠ 0 ∧ fp = ld.dlsym (open_libhccl ld) name ∧
      o = Forward.called fp args (ld.invoke fp args))

/-- A table is well formed for a loader: `init_result_` is `HCCL_E_INTERNAL`, or it is
`HCCL_SUCCESS`, the library handle is non-null and every pointer is the non-null address
that `dlsym` returned for its entry. -/
def TableOk (ld : Loader) (r : HcclAPI) : Prop :=
  r.init_result_ = ld.codes.HCCL_E_INTERNAL ∨
    (r.init_result_ = ld.codes.HCCL_SUCCESS ∧ open_libhccl ld ≠ 0 ∧
      r.pointers = hccl_entries.map (ld.dlsym (open_libhccl ld)) ∧
      ∀ p ∈ r.pointers, p ≠ 0)

/-- A loader that finds the library at the second attempt and resolves every entry. -/
def simLoader : Loader where
  codes := { HCCL_SUCCESS := 0, HCCL_E_INTERNAL := 4 }
  dlopen := fun path flags => if path = "libhccl.so" ∧ flags = RTLD_LAZY then 7 else 0
  dlsym := fun handle name => if handle = 7 then 1000 + name.length else 0
  invoke := fun fp args => fp + args.length
  invoke_str := fun _ _ => "success"

/-- A loader whose library lacks the entry `HcclBarrier`. -/
def brokenLoader : Loader :=
  { simLoader with
    dlsym := fun handle name =>
      if handle = 7 ∧ name ≠ "HcclBarrier" then 1000 + name.length else 0 }

end HcclSys

/-! ## Theorems about the facade -/

namespace MonarchHixl

open HixlStatus

/-- C1: for a non-null engine handle, `hixl_check_transfer_status` returns 0 when
`GetTransferStatus` succeeds with COMPLETED, 1 with WAITING, -2 with FAILED, -3 with
TIMEOUT, and -1 when the engine call returns a non-success status or succeeds with a
status outside those four; it returns -1 for a null handle; and it never returns any
value other than 0, 1, -1, -2 and -3. -/
theorem hixl_check_transfer_status_values {E : Type} (eng : Hixl E) (w : World E)
    (handle req : Nat) (hd : eng.codes.Distinct) :
    (handle ≠ 0 → (eng.GetTransferStatus w.engine req).1 = eng.codes.SUCCESS →
      (eng.GetTransferStatus w.engine req).2.1 = eng.codes.COMPLETED →
      (hixl_check_transfer_status eng w handle req).value = 0) ∧
    (handle ≠ 0 → (eng.GetTransferStatus w.engine req).1 = eng.codes.SUCCESS →
      (eng.GetTransferStatus w.engine req).2.1 = eng.codes.WAITING →
      (hixl_check_transfer_status eng w handle req).value = 1) ∧
    (handle ≠ 0 → (eng.GetTransferStatus w.engine req).1 = eng.codes.SUCCESS →
      (eng.GetTransferStatus w.engine req).2.1 = eng.codes.FAILED →
      (hixl_check_transfer_status eng w handle req).value = -2) ∧
    (handle ≠ 0 → (eng.GetTransferStatus w.engine req).1 = eng.codes.SUCCESS →
      (eng.GetTransferStatus w.engine req).2.1 = eng.codes.TIMEOUT →
      (hixl_check_transfer_status eng w handle req).value = -3) ∧
    (handle ≠ 0 → (eng.GetTransferStatus w.engine req).1 ≠ eng.codes.SUCCESS →
      (hixl_check_transfer_status eng w handle req).value = -1) ∧
    (handle ≠ 0 → (eng.GetTransferStatus w.engine req).1 = eng.codes.SUCCESS →
      (eng.GetTransferStatus w.engine req).2.1 ≠ eng.codes.COMPLETED →
      (eng.GetTransferStatus w.engine req).2.1 ≠ eng.codes.WAITING →
      (eng.GetTransferStatus w.engine req).2.1 ≠ eng.codes.FAILED →
      (eng.GetTransferStatus w.engine req).2.1 ≠ eng.codes.TIMEOUT →
      (hixl_check_transfer_status eng w handle req).value = -1) ∧
    (handle = 0 → (hixl_check_transfer_status eng w handle req).value = -1) ∧
    ((hixl_check_transfer_status eng w handle req).value = 0 ∨
      (hixl_check_transfer_status eng w handle req).value = 1 ∨
      (hixl_check_transfer_status eng w handle req).value = -1 ∨
      (hixl_check_transfer_status eng w handle req).value = -2 ∨
      (hixl_check_transfer_status eng w handle req).value = -3) := by
  obtain ⟨-, -, -, h1, h2, h3, h4, h5, h6⟩ := hd
  refine ⟨?_, ?_, ?_, ?_, ?_, ?_, ?_, ?_⟩
  · intro hh hs hc
    simp [hixl_check_transfer_status, hh, hs, hc]
  · intro hh hs hc
    simp [hixl_check_transfer_status, hh, hs, hc, Ne.symm h1]
  · intro hh hs hc
    simp [hixl_check_transfer_status, hh, hs, hc, Ne.symm h2, Ne.symm h4]
  · intro hh hs hc
    simp [hixl_check_transfer_status, hh, hs, hc, Ne.symm h3, Ne.symm h5, Ne.symm h6]
  · intro hh hs
    simp [hixl_check_transfer_status, hh, hs]
  · intro hh hs n1 n2 n3 n4
    simp [hixl_check_transfer_status, hh, hs, n1, n2, n3, n4]
  · intro hh
    simp [hixl_check_transfer_status, hh]
  · unfold hixl_check_transfer_status
    dsimp only
    split_ifs <;> simp

/-- Witness for C1 on the simulated engine: the first poll of request 5 reports WAITING
and the facade returns 1. -/
theorem hixl_check_transfer_status_values_witness :
    simEngine.codes.Distinct ∧
      (hixl_check_transfer_status simEngine (simWorld []) 1 5).value = 1 :=
  ⟨by decide,
    (hixl_check_transfer_status_values simEngine (simWorld []) 1 5 (by decide)).2.1
      (by decide) (by decide) (by decide)⟩

/-- C2: for a non-null handle and a non-null remote engine name, `hixl_connect` returns
`HIXL_STATUS_SUCCESS` exactly when the engine's `Connect` returns SUCCESS or
ALREADY_CONNECTED, and `HIXL_STATUS_ERROR` for every other engine status.  Consequently,
for two consecutive `hixl_connect` calls with the same name (any timeouts) against an
engine that answers the repeated `Connect` with ALREADY_CONNECTED, the second call
returns `HIXL_STATUS_SUCCESS` and leaves the error channel as the first call left it, and
the first call returns `HIXL_STATUS_SUCCESS` and leaves the channel unchanged when the
engine made the connection (SUCCESS or ALREADY_CONNECTED). -/
theorem hixl_connect_idempotent {E : Type} (eng : Hixl E) (w : World E)
    (handle : Nat) (name : String) (t t2 : Int) (hh : handle ≠ 0) :
    ((hixl_connect eng w handle (some name) t).value = HIXL_STATUS_SUCCESS ↔
      ((eng.Connect w.engine name t).1 = eng.codes.SUCCESS ∨
        (eng.Connect w.engine name t).1 = eng.codes.ALREADY_CONNECTED)) ∧
    ((eng.Connect w.engine name t).1 ≠ eng.codes.SUCCESS →
      (eng.Connect w.engine name t).1 ≠ eng.codes.ALREADY_CONNECTED →
      (hixl_connect eng w handle (some name) t).value = HIXL_STATUS_ERROR) ∧
    ((eng.Connect (eng.Connect w.engine name t).2 name t2).1 = eng.codes.ALREADY_CONNECTED →
      (hixl_connect eng (hixl_connect eng w handle (some name) t).world handle
          (some name) t2).value = HIXL_STATUS_SUCCESS ∧
      (hixl_connect eng (hixl_connect eng w handle (some name) t).world handle
          (some name) t2).world.g_last_error =
        (hixl_connect eng w handle (some name) t).world.g_last_error ∧
      (((eng.Connect w.engine name t).1 = eng.codes.SUCCESS ∨
          (eng.Connect w.engine name t).1 = eng.codes.ALREADY_CONNECTED) →
        (hixl_connect eng w handle (some name) t).value = HIXL_STATUS_SUCCESS ∧
        (hixl_connect eng w handle (some name) t).world.g_last_error = w.g_last_error)) := by
  have hengine : (hixl_connect eng w handle (some name) t).world.engine =
      (eng.Connect w.engine name t).2 := by
    simp only [hixl_connect, hh, if_false]
    split_ifs <;> rfl
  refine ⟨?_, ?_, ?_⟩
  · simp only [hixl_connect, hh, if_false]
    split_ifs with h
    · simp [h.1, h.2]
    · simp only [true_iff]
      by_contra hc
      push_neg at hc
      exact h hc
  · intro h1 h2
    simp [hixl_connect, hh, h1, h2]
  · intro h2
    refine ⟨?_, ?_, ?_⟩
    · simp only [hixl_connect, hh, if_false] at hengine ⊢
      simp [hengine, h2]
    · simp only [hixl_connect, hh, if_false] at hengine ⊢
      simp [hengine, h2]
    · intro h1
      simp only [hixl_connect, hh, if_false]
      rcases h1 with h1 | h1 <;> simp [h1]

/-- Witness for C2 on the simulated engine: connecting twice to "remote-b". -/
theorem hixl_connect_idempotent_witness :
    (1 : Nat) ≠ 0 ∧
    (hixl_connect simEngine (hixl_connect simEngine (simWorld []) 1 (some "remote-b")
        5000).world 1 (some "remote-b") 5000).value = HIXL_STATUS_SUCCESS :=
  ⟨by decide,
    ((hixl_connect_idempotent simEngine (simWorld []) 1 "remote-b" 5000 5000
      (by decide)).2.2 (by decide)).1⟩

/-- C3: for a non-null handle and a non-null remote engine name, `hixl_disconnect` returns
`HIXL_STATUS_SUCCESS` exactly when the engine's `Disconnect` returns SUCCESS or
NOT_CONNECTED, and `HIXL_STATUS_ERROR` for every other engine status; in particular
ALREADY_CONNECTED from `Disconnect` and NOT_CONNECTED from `Connect` are reported as
`HIXL_STATUS_ERROR`; and a disconnect that the engine reports as NOT_CONNECTED returns
`HIXL_STATUS_SUCCESS` and leaves the error channel unchanged. -/
theorem hixl_disconnect_tolerates_not_connected {E : Type} (eng : Hixl E) (w : World E)
    (handle : Nat) (name : String) (t : Int) (hh : handle ≠ 0)
    (hd : eng.codes.Distinct) :
    ((hixl_disconnect eng w handle (some name) t).value = HIXL_STATUS_SUCCESS ↔
      ((eng.Disconnect w.engine name t).1 = eng.codes.SUCCESS ∨
        (eng.Disconnect w.engine name t).1 = eng.codes.NOT_CONNECTED)) ∧
    ((eng.Disconnect w.engine name t).1 ≠ eng.codes.SUCCESS →
      (eng.Disconnect w.engine name t).1 ≠ eng.codes.NOT_CONNECTED →
      (hixl_disconnect eng w handle (some name) t).value = HIXL_STATUS_ERROR) ∧
    ((eng.Disconnect w.engine name t).1 = eng.codes.ALREADY_CONNECTED →
      (hixl_disconnect eng w handle (some name) t).value = HIXL_STATUS_ERROR) ∧
    ((eng.Connect w.engine name t).1 = eng.codes.NOT_CONNECTED →
      (hixl_connect eng w handle (some name) t).value = HIXL_STATUS_ERROR) ∧
    ((eng.Disconnect w.engine name t).1 = eng.codes.NOT_CONNECTED →
      (hixl_disconnect eng w handle (some name) t).value = HIXL_STATUS_SUCCESS ∧
      (hixl_disconnect eng w handle (some name) t).world.g_last_error = w.g_last_error) := by
  obtain ⟨d1, d2, d3, -⟩ := hd
  refine ⟨?_, ?_, ?_, ?_, ?_⟩
  · simp only [hixl_disconnect, hh, if_false]
    split_ifs with h
    · simp [h.1, h.2]
    · simp only [true_iff]
      by_contra hc
      push_neg at hc
      exact h hc
  · intro h1 h2
    simp [hixl_disconnect, hh, h1, h2]
  · intro h1
    simp [hixl_disconnect, hh, h1, Ne.symm d1, d3]
  · intro h1
    simp [hixl_connect, hh, h1, Ne.symm d2, Ne.symm d3]
  · intro h1
    simp [hixl_disconnect, hh, h1]

/-- Witness for C3 on the simulated engine: disconnecting a name that was never
connected. -/
theorem hixl_disconnect_tolerates_not_connected_witness :
    (1 : Nat) ≠ 0 ∧ simEngine.codes.Distinct ∧
    (hixl_disconnect simEngine (simWorld []) 1 (some "remote-b") 5000).value =
      HIXL_STATUS_SUCCESS ∧
    (hixl_disconnect simEngine (simWorld []) 1 (some "remote-b") 5000).world.g_last_error =
      "" :=
  ⟨by decide, by decide,
    (hixl_disconnect_tolerates_not_connected simEngine (simWorld []) 1 "remote-b" 5000
      (by decide) (by decide)).2.2.2.2 (by decide)⟩

/-- The copy of one descriptor made in the loop body, as a function. -/
theorem transfer_ops_loop_eq (descriptors : Nat → HixlOpDesc) (remaining i : Nat)
    (ops : List TransferOpDesc) :
    transfer_ops_loop descriptors remaining i ops =
      ops ++ (List.range' i remaining).map (fun k =>
        ({ local_addr := (descriptors k).local_addr
           remote_addr := (descriptors k).remote_addr
           len := (descriptors k).len } : TransferOpDesc)) := by
  induction remaining generalizing i ops with
  | zero => simp [transfer_ops_loop]
  | succ n ih => simp [transfer_ops_loop, ih, List.range'_succ]

/-- The vector built by the loop has one element per iteration. -/
theorem transfer_ops_loop_length (descriptors : Nat → HixlOpDesc) (desc_count : Nat) :
    (transfer_ops_loop descriptors desc_count 0 []).length = desc_count := by
  simp [transfer_ops_loop_eq]

/-- Element `i` of the vector built by the loop is the copy of `descriptors[i]`. -/
theorem transfer_ops_loop_getElem? (descriptors : Nat → HixlOpDesc) (desc_count i : Nat)
    (hi : i < desc_count) :
    (transfer_ops_loop descriptors desc_count 0 [])[i]? =
      some { local_addr := (descriptors i).local_addr
             remote_addr := (descriptors i).remote_addr
             len := (descriptors i).len } := by
  simp [transfer_ops_loop_eq, List.getElem?_range' 0 1 hi]

/-- C4, counterexample: with `desc_count = 0`, non-null pointers and a connected remote
engine, `hixl_transfer_async` submits an empty operation list; the simulated engine accepts
it, so the facade returns `HIXL_STATUS_SUCCESS` and overwrites the output slot (which held
0) with the request handle 1. -/
theorem hixl_transfer_async_zero_count_succeeds :
    (hixl_transfer_async simEngine (simWorld ["remote-b"]) 1 (some "remote-b")
        HIXL_OP_WRITE (some simDescs) 0 (some 0)).value = HIXL_STATUS_SUCCESS ∧
    (hixl_transfer_async simEngine (simWorld ["remote-b"]) 1 (some "remote-b")
        HIXL_OP_WRITE (some simDescs) 0 (some 0)).slot = some 1 ∧
    (hixl_transfer_async simEngine (simWorld ["remote-b"]) 1 (some "remote-b")
        HIXL_OP_WRITE (some simDescs) 0 (some 0)).world.calls =
      [EngineCall.TransferAsync "remote-b" TransferOp.WRITE []] := by
  decide

/-- C4, amended: called with a null descriptor array, `hixl_transfer_async` returns
`HIXL_STATUS_ERROR`, leaves the output slot with its previous value and changes nothing
else (no engine call, error channel untouched), whatever the other arguments are.  Called
with `desc_count = 0` and non-null arguments it submits the empty operation list to the
engine's `TransferAsync` and follows the engine's status: `HIXL_STATUS_SUCCESS` with the
request handle written on SUCCESS, `HIXL_STATUS_ERROR` with the slot unchanged
otherwise. -/
theorem hixl_transfer_async_null_descriptors {E : Type} (eng : Hixl E) (w : World E)
    (handle : Nat) (remote_engine : Option String) (op : Nat) (desc_count : Nat)
    (out_req : Option Nat) :
    ((hixl_transfer_async eng w handle remote_engine op none desc_count out_req).value =
        HIXL_STATUS_ERROR ∧
      (hixl_transfer_async eng w handle remote_engine op none desc_count out_req).slot =
        out_req ∧
      (hixl_transfer_async eng w handle remote_engine op none desc_count out_req).world =
        w) ∧
    (∀ (name : String) (descs : Nat → HixlOpDesc) (v : Nat), handle ≠ 0 →
      (hixl_transfer_async eng w handle (some name) op (some descs) 0 (some v)).world.calls =
        w.calls ++ [EngineCall.TransferAsync name
          (if op = HIXL_OP_READ then TransferOp.READ else TransferOp.WRITE) []] ∧
      ((eng.TransferAsync w.engine name
          (if op = HIXL_OP_READ then TransferOp.READ else TransferOp.WRITE) []).1 =
          eng.codes.SUCCESS →
        (hixl_transfer_async eng w handle (some name) op (some descs) 0 (some v)).value =
          HIXL_STATUS_SUCCESS ∧
        (hixl_transfer_async eng w handle (some name) op (some descs) 0 (some v)).slot =
          some (eng.TransferAsync w.engine name
            (if op = HIXL_OP_READ then TransferOp.READ else TransferOp.WRITE) []).2.1) ∧
      ((eng.TransferAsync w.engine name
          (if op = HIXL_OP_READ then TransferOp.READ else TransferOp.WRITE) []).1 ≠
          eng.codes.SUCCESS →
        (hixl_transfer_async eng w handle (some name) op (some descs) 0 (some v)).value =
          HIXL_STATUS_ERROR ∧
        (hixl_transfer_async eng w handle (some name) op (some descs) 0 (some v)).slot =
          some v)) := by
  refine ⟨?_, ?_⟩
  · cases remote_engine <;> simp [hixl_transfer_async]
  · intro name descs v hh
    refine ⟨?_, ?_, ?_⟩
    · simp only [hixl_transfer_async, hh, transfer_ops_loop]
      split_ifs <;> simp_all
    · intro hs
      simp only [hixl_transfer_async, hh, transfer_ops_loop]
      simp [hs]
    · intro hs
      simp only [hixl_transfer_async, hh, transfer_ops_loop]
      simp [hs]

/-- Witness for the amended C4 on the simulated engine: an empty batch to a remote engine
that is not connected is refused by the engine, and the slot keeps its value 7. -/
theorem hixl_transfer_async_null_descriptors_witness :
    (1 : Nat) ≠ 0 ∧
    (hixl_transfer_async simEngine (simWorld []) 1 (some "remote-b") HIXL_OP_READ
        (some simDescs) 0 (some 7)).value = HIXL_STATUS_ERROR ∧
    (hixl_transfer_async simEngine (simWorld []) 1 (some "remote-b") HIXL_OP_READ
        (some simDescs) 0 (some 7)).slot = some 7 :=
  ⟨by decide,
    ((hixl_transfer_async_null_descriptors simEngine (simWorld []) 1 (some "remote-b")
      HIXL_OP_READ 0 (some 7)).2 "remote-b" simDescs 7 (by decide)).2.2 (by decide)⟩

/-- C5: with non-null arguments, `hixl_transfer_async` makes exactly one engine call,
`TransferAsync` on the given remote engine name, whose operation list has `desc_count`
elements, the `i`-th being the `local_addr`, `remote_addr` and `len` of `descriptors[i]`
for every `i < desc_count`; `HIXL_OP_READ` is submitted as READ and `HIXL_OP_WRITE` as
WRITE; when the engine returns SUCCESS the facade returns `HIXL_STATUS_SUCCESS` and the
output slot holds the request handle the engine produced, and on any other engine status
it returns `HIXL_STATUS_ERROR` and the output slot keeps its value. -/
theorem hixl_transfer_async_forwards {E : Type} (eng : Hixl E) (w : World E)
    (handle : Nat) (name : String) (op : Nat) (descs : Nat → HixlOpDesc)
    (desc_count : Nat) (v : Nat) (hh : handle ≠ 0) :
    ∃ (top : TransferOp) (ops : List TransferOpDesc),
      (hixl_transfer_async eng w handle (some name) op (some descs) desc_count
          (some v)).world.calls = w.calls ++ [EngineCall.TransferAsync name top ops] ∧
      ops.length = desc_count ∧
      (∀ i, i < desc_count →
        ops[i]? = some { local_addr := (descs i).local_addr
                         remote_addr := (descs i).remote_addr
                         len := (descs i).len }) ∧
      (op = HIXL_OP_READ → top = TransferOp.READ) ∧
      (op = HIXL_OP_WRITE → top = TransferOp.WRITE) ∧
      ((eng.TransferAsync w.engine name top ops).1 = eng.codes.SUCCESS →
        (hixl_transfer_async eng w handle (some name) op (some descs) desc_count
            (some v)).value = HIXL_STATUS_SUCCESS ∧
        (hixl_transfer_async eng w handle (some name) op (some descs) desc_count
            (some v)).slot = some (eng.TransferAsync w.engine name top ops).2.1) ∧
      ((eng.TransferAsync w.engine name top ops).1 ≠ eng.codes.SUCCESS →
        (hixl_transfer_async eng w handle (some name) op (some descs) desc_count
            (some v)).value = HIXL_STATUS_ERROR ∧
        (hixl_transfer_async eng w handle (some name) op (some descs) desc_count
            (some v)).slot = some v) := by
  refine ⟨if op = HIXL_OP_READ then TransferOp.READ else TransferOp.WRITE,
    transfer_ops_loop descs desc_count 0 [], ?_, transfer_ops_loop_length descs desc_count,
    fun i hi => transfer_ops_loop_getElem? descs desc_count i hi, ?_, ?_, ?_, ?_⟩
  · simp only [hixl_transfer_async, hh]
    split_ifs <;> simp_all
  · intro h
    simp [h]
  · intro h
    simp [h, HIXL_OP_WRITE, HIXL_OP_READ]
  · intro hs
    simp only [hixl_transfer_async, hh]
    simp [hs]
  · intro hs
    simp only [hixl_transfer_async, hh]
    simp [hs]

/-- Witness for C5 on the simulated engine: a two-element WRITE batch to a connected
remote engine is logged as submitted, in order. -/
theorem hixl_transfer_async_forwards_witness :
    (1 : Nat) ≠ 0 ∧
    ∃ (top : TransferOp) (ops : List TransferOpDesc),
      (hixl_transfer_async simEngine (simWorld ["remote-b"]) 1 (some "remote-b")
          HIXL_OP_WRITE (some simDescs) 2 (some 0)).world.calls =
        (simWorld ["remote-b"]).calls ++ [EngineCall.TransferAsync "remote-b" top ops] ∧
      ops.length = 2 :=
  ⟨by decide,
    (hixl_transfer_async_forwards simEngine (simWorld ["remote-b"]) 1 "remote-b"
      HIXL_OP_WRITE simDescs 2 0 (by decide)).imp fun _ h =>
        h.imp fun _ h2 => ⟨h2.1, h2.2.1⟩⟩


/-- A string that starts with a non-empty string is not empty. -/
theorem append_ne_empty (a b : String) (h : a ≠ "") : a ++ b ≠ "" := by
  intro hc
  apply h
  have hdata := congrArg String.data hc
  simp at hdata
  exact String.ext hdata.1

/-- C6, counterexample: on a fresh thread (empty error channel) `hixl_initialize` with a
null `local_engine` reports `HIXL_STATUS_ERROR`, `hixl_check_transfer_status` returns the
negative value -1 for a null handle, and against an engine whose query succeeds with
FAILED, TIMEOUT or an unnamed status it returns the negative values -2, -3 and -1; in
every one of these cases `hixl_get_error_msg` called right afterwards returns the empty
string. -/
theorem error_msg_empty_after_null_argument :
    (( hixl_initialize simEngine (simWorld []) 1 none).value = HIXL_STATUS_ERROR ∧
      hixl_get_error_msg ( hixl_initialize simEngine (simWorld []) 1 none).world = "") ∧
    ((hixl_check_transfer_status simEngine (simWorld []) 0 5).value = -1 ∧
      hixl_get_error_msg (hixl_check_transfer_status simEngine (simWorld []) 0 5).world =
        "") ∧
    ((hixl_check_transfer_status failEngine (simWorld []) 1 1).value = -2 ∧
      hixl_get_error_msg (hixl_check_transfer_status failEngine (simWorld []) 1 1).world =
        "") ∧
    ((hixl_check_transfer_status failEngine (simWorld []) 1 2).value = -3 ∧
      hixl_get_error_msg (hixl_check_transfer_status failEngine (simWorld []) 1 2).world =
        "") ∧
    ((hixl_check_transfer_status failEngine (simWorld []) 1 3).value = -1 ∧
      hixl_get_error_msg (hixl_check_transfer_status failEngine (simWorld []) 1 3).world =
        "") := by
  decide

/-- C6, amended: for every facade operation called with a non-null handle and non-null
required pointers, and every prior content of the error channel, if the call reports
`HIXL_STATUS_ERROR` (for `hixl_check_transfer_status`: if the engine's `GetTransferStatus`
returns a non-success status, in which case the call returns -1), then
`hixl_get_error_msg` called immediately afterwards returns a non-empty string.  The other
failures do not write the error channel, so `hixl_get_error_msg` returns afterwards what
it returned before: whenever `GetTransferStatus` succeeds, whatever status it reports
(hence for the values -2, -3 and -1 returned after a successful query), and whenever an
operation fails for a null handle or a null required pointer. -/
theorem error_msg_nonempty_after_engine_failure {E : Type} (eng : Hixl E) (w : World E)
    (handle : Nat) (hh : handle ≠ 0) :
    (∀ name, ( hixl_initialize eng w handle (some name)).value = HIXL_STATUS_ERROR →
      hixl_get_error_msg ( hixl_initialize eng w handle (some name)).world ≠ "") ∧
    (∀ addr len type v,
      (hixl_register_mem eng w handle addr len type (some v)).value = HIXL_STATUS_ERROR →
      hixl_get_error_msg (hixl_register_mem eng w handle addr len type (some v)).world ≠
        "") ∧
    (∀ mem_handle, (hixl_deregister_mem eng w handle mem_handle).value = HIXL_STATUS_ERROR →
      hixl_get_error_msg (hixl_deregister_mem eng w handle mem_handle).world ≠ "") ∧
    (∀ name t, (hixl_connect eng w handle (some name) t).value = HIXL_STATUS_ERROR →
      hixl_get_error_msg (hixl_connect eng w handle (some name) t).world ≠ "") ∧
    (∀ name t, (hixl_disconnect eng w handle (some name) t).value = HIXL_STATUS_ERROR →
      hixl_get_error_msg (hixl_disconnect eng w handle (some name) t).world ≠ "") ∧
    (∀ name op descs desc_count v,
      (hixl_transfer_async eng w handle (some name) op (some descs) desc_count
        (some v)).value = HIXL_STATUS_ERROR →
      hixl_get_error_msg (hixl_transfer_async eng w handle (some name) op (some descs)
        desc_count (some v)).world ≠ "") ∧
    (∀ req, (eng.GetTransferStatus w.engine req).1 ≠ eng.codes.SUCCESS →
      (hixl_check_transfer_status eng w handle req).value = -1 ∧
      hixl_get_error_msg (hixl_check_transfer_status eng w handle req).world ≠ "") ∧
    (∀ req, (eng.GetTransferStatus w.engine req).1 = eng.codes.SUCCESS →
      hixl_get_error_msg (hixl_check_transfer_status eng w handle req).world =
        hixl_get_error_msg w) ∧
    (∀ req, (eng.GetTransferStatus w.engine req).1 = eng.codes.SUCCESS →
      (eng.GetTransferStatus w.engine req).2.1 ≠ eng.codes.COMPLETED →
      (eng.GetTransferStatus w.engine req).2.1 ≠ eng.codes.WAITING →
      ((hixl_check_transfer_status eng w handle req).value = -2 ∨
        (hixl_check_transfer_status eng w handle req).value = -3 ∨
        (hixl_check_transfer_status eng w handle req).value = -1) ∧
      hixl_get_error_msg (hixl_check_transfer_status eng w handle req).world =
        hixl_get_error_msg w) ∧
    (∀ (local_engine remote_engine : Option String) (addr len type mem_handle op : Nat)
        (out : Option Nat) (timeout_ms : Int) (descriptors : Option (Nat → HixlOpDesc))
        (desc_count req : Nat),
      (( hixl_initialize eng w 0 local_engine).value = HIXL_STATUS_ERROR ∧
        hixl_get_error_msg ( hixl_initialize eng w 0 local_engine).world =
          hixl_get_error_msg w) ∧
      (( hixl_initialize eng w handle none).value = HIXL_STATUS_ERROR ∧
        hixl_get_error_msg ( hixl_initialize eng w handle none).world =
          hixl_get_error_msg w) ∧
      ((hixl_register_mem eng w 0 addr len type out).value = HIXL_STATUS_ERROR ∧
        hixl_get_error_msg (hixl_register_mem eng w 0 addr len type out).world =
          hixl_get_error_msg w) ∧
      ((hixl_register_mem eng w handle addr len type none).value = HIXL_STATUS_ERROR ∧
        hixl_get_error_msg (hixl_register_mem eng w handle addr len type none).world =
          hixl_get_error_msg w) ∧
      ((hixl_deregister_mem eng w 0 mem_handle).value = HIXL_STATUS_ERROR ∧
        hixl_get_error_msg (hixl_deregister_mem eng w 0 mem_handle).world =
          hixl_get_error_msg w) ∧
      ((hixl_connect eng w 0 remote_engine timeout_ms).value = HIXL_STATUS_ERROR ∧
        hixl_get_error_msg (hixl_connect eng w 0 remote_engine timeout_ms).world =
          hixl_get_error_msg w) ∧
      ((hixl_connect eng w handle none timeout_ms).value = HIXL_STATUS_ERROR ∧
        hixl_get_error_msg (hixl_connect eng w handle none timeout_ms).world =
          hixl_get_error_msg w) ∧
      ((hixl_disconnect eng w 0 remote_engine timeout_ms).value = HIXL_STATUS_ERROR ∧
        hixl_get_error_msg (hixl_disconnect eng w 0 remote_engine timeout_ms).world =
          hixl_get_error_msg w) ∧
      ((hixl_disconnect eng w handle none timeout_ms).value = HIXL_STATUS_ERROR ∧
        hixl_get_error_msg (hixl_disconnect eng w handle none timeout_ms).world =
          hixl_get_error_msg w) ∧
      ((hixl_transfer_async eng w 0 remote_engine op descriptors desc_count out).value =
          HIXL_STATUS_ERROR ∧
        hixl_get_error_msg
          (hixl_transfer_async eng w 0 remote_engine op descriptors desc_count out).world =
          hixl_get_error_msg w) ∧
      ((hixl_transfer_async eng w handle none op descriptors desc_count out).value =
          HIXL_STATUS_ERROR ∧
        hixl_get_error_msg
          (hixl_transfer_async eng w handle none op descriptors desc_count out).world =
          hixl_get_error_msg w) ∧
      ((hixl_transfer_async eng w handle remote_engine op none desc_count out).value =
          HIXL_STATUS_ERROR ∧
        hixl_get_error_msg
          (hixl_transfer_async eng w handle remote_engine op none desc_count out).world =
          hixl_get_error_msg w) ∧
      ((hixl_transfer_async eng w handle remote_engine op descriptors desc_count
          none).value = HIXL_STATUS_ERROR ∧
        hixl_get_error_msg
          (hixl_transfer_async eng w handle remote_engine op descriptors desc_count
            none).world = hixl_get_error_msg w) ∧
      ((hixl_check_transfer_status eng w 0 req).value = -1 ∧
        hixl_get_error_msg (hixl_check_transfer_status eng w 0 req).world =
          hixl_get_error_msg w)) := by
  refine ⟨?_, ?_, ?_, ?_, ?_, ?_, ?_, ?_, ?_, ?_⟩
  · intro name
    simp only [ hixl_initialize, hixl_get_error_msg, hh, if_false]
    split_ifs <;>
      first
      | (intro _; exact append_ne_empty _ _ (by decide))
      | (intro h; cases h)
  · intro addr len type v
    simp only [hixl_register_mem, hixl_get_error_msg, hh, false_or, reduceCtorEq, if_false]
    split_ifs <;>
      first
      | (intro _; exact append_ne_empty _ _ (by decide))
      | (intro h; cases h)
  · intro mem_handle
    simp only [hixl_deregister_mem, hixl_get_error_msg, hh, if_false]
    split_ifs <;>
      first
      | (intro _; exact append_ne_empty _ _ (by decide))
      | (intro h; cases h)
  · intro name t
    simp only [hixl_connect, hixl_get_error_msg, hh, if_false]
    split_ifs <;>
      first
      | (intro _; exact append_ne_empty _ _ (by decide))
      | (intro h; cases h)
  · intro name t
    simp only [hixl_disconnect, hixl_get_error_msg, hh, if_false]
    split_ifs <;>
      first
      | (intro _; exact append_ne_empty _ _ (by decide))
      | (intro h; cases h)
  · intro name op descs desc_count v
    simp only [hixl_transfer_async, hixl_get_error_msg, hh, false_or, reduceCtorEq,
      if_false]
    split_ifs <;>
      first
      | (intro _; exact append_ne_empty _ _ (by decide))
      | (intro h; cases h)
  · intro req hs
    simp only [hixl_check_transfer_status, hixl_get_error_msg, hh, if_false, hs, ne_eq,
      not_false_eq_true, if_true, true_and]
    exact append_ne_empty _ _ (by decide)
  · intro req hs
    simp only [hixl_check_transfer_status, hixl_get_error_msg, hh, if_false, hs, ne_eq,
      not_true_eq_false]
    split_ifs <;> rfl
  · intro req hs hc hw
    simp only [hixl_check_transfer_status, hixl_get_error_msg, hh, if_false, hs, hc, hw,
      ne_eq, not_true_eq_false]
    split_ifs <;> simp
  · intro local_engine remote_engine addr len type mem_handle op out timeout_ms
      descriptors desc_count req
    refine ⟨?_, ?_, ?_, ?_, ?_, ?_, ?_, ?_, ?_, ?_, ?_, ?_, ?_, ?_⟩
    · cases local_engine <;> simp [ hixl_initialize]
    · simp [ hixl_initialize]
    · simp [hixl_register_mem]
    · simp [hixl_register_mem]
    · simp [hixl_deregister_mem]
    · cases remote_engine <;> simp [hixl_connect]
    · simp [hixl_connect]
    · cases remote_engine <;> simp [hixl_disconnect]
    · simp [hixl_disconnect]
    · cases remote_engine <;> cases descriptors <;> simp [hixl_transfer_async]
    · simp [hixl_transfer_async]
    · cases remote_engine <;> simp [hixl_transfer_async]
    · cases remote_engine <;> cases descriptors <;> simp [hixl_transfer_async]
    · simp [hixl_check_transfer_status]

/-- Witness for the amended C6 on the simulated engine: connecting with timeout 0 fails
in the engine, and the message is then "Connect failed with status: 103901". -/
theorem error_msg_nonempty_after_engine_failure_witness :
    (1 : Nat) ≠ 0 ∧
    (hixl_connect simEngine (simWorld []) 1 (some "remote-b") 0).value =
      HIXL_STATUS_ERROR ∧
    hixl_get_error_msg (hixl_connect simEngine (simWorld []) 1 (some "remote-b") 0).world ≠
      "" :=
  ⟨by decide, by decide,
    (error_msg_nonempty_after_engine_failure simEngine (simWorld []) 1
      (by decide)).2.2.2.1 "remote-b" 0 (by decide)⟩

/-- C7: a facade operation called with a null engine handle or a null required pointer
(`local_engine` for `hixl_initialize`; `out_handle` for `hixl_register_mem`;
`remote_engine` for `hixl_connect` and `hixl_disconnect`; `remote_engine`, `descriptors`
or `out_req` for `hixl_transfer_async`) returns `HIXL_STATUS_ERROR` (-1 for
`hixl_check_transfer_status`; `hixl_finalize` and `hixl_destroy` return nothing) and
leaves everything as it was: the engine object, the log of engine calls (no call is
made), the error channel and the output slot.  In particular `hixl_initialize(handle,
null)` never calls `Initialize`. -/
theorem null_argument_makes_no_engine_call {E : Type} (eng : Hixl E) (w : World E)
    (handle : Nat) (local_engine remote_engine : Option String) (addr len type : Nat)
    (out : Option Nat) (mem_handle : Nat) (timeout_ms : Int) (op : Nat)
    (descriptors : Option (Nat → HixlOpDesc)) (desc_count : Nat) (req : Nat) :
    hixl_initialize eng w 0 local_engine = ⟨HIXL_STATUS_ERROR, w⟩ ∧
    hixl_initialize eng w handle none = ⟨HIXL_STATUS_ERROR, w⟩ ∧
    hixl_finalize eng w 0 = w ∧
    hixl_destroy w 0 = w ∧
    hixl_register_mem eng w 0 addr len type out = ⟨HIXL_STATUS_ERROR, out, w⟩ ∧
    hixl_register_mem eng w handle addr len type none = ⟨HIXL_STATUS_ERROR, none, w⟩ ∧
    hixl_deregister_mem eng w 0 mem_handle = ⟨HIXL_STATUS_ERROR, w⟩ ∧
    hixl_connect eng w 0 remote_engine timeout_ms = ⟨HIXL_STATUS_ERROR, w⟩ ∧
    hixl_connect eng w handle none timeout_ms = ⟨HIXL_STATUS_ERROR, w⟩ ∧
    hixl_disconnect eng w 0 remote_engine timeout_ms = ⟨HIXL_STATUS_ERROR, w⟩ ∧
    hixl_disconnect eng w handle none timeout_ms = ⟨HIXL_STATUS_ERROR, w⟩ ∧
    hixl_transfer_async eng w 0 remote_engine op descriptors desc_count out =
      ⟨HIXL_STATUS_ERROR, out, w⟩ ∧
    hixl_transfer_async eng w handle none op descriptors desc_count out =
      ⟨HIXL_STATUS_ERROR, out, w⟩ ∧
    hixl_transfer_async eng w handle remote_engine op none desc_count out =
      ⟨HIXL_STATUS_ERROR, out, w⟩ ∧
    hixl_transfer_async eng w handle remote_engine op descriptors desc_count none =
      ⟨HIXL_STATUS_ERROR, none, w⟩ ∧
    hixl_check_transfer_status eng w 0 req = ⟨-1, w⟩ := by
  refine ⟨?_, ?_, ?_, ?_, ?_, ?_, ?_, ?_, ?_, ?_, ?_, ?_, ?_, ?_, ?_, ?_⟩
  · cases local_engine <;> simp [ hixl_initialize]
  · simp [ hixl_initialize]
  · simp [hixl_finalize]
  · simp [hixl_destroy]
  · simp [hixl_register_mem]
  · simp [hixl_register_mem]
  · simp [hixl_deregister_mem]
  · cases remote_engine <;> simp [hixl_connect]
  · simp [hixl_connect]
  · cases remote_engine <;> simp [hixl_disconnect]
  · simp [hixl_disconnect]
  · cases remote_engine <;> cases descriptors <;> simp [hixl_transfer_async]
  · simp [hixl_transfer_async]
  · cases remote_engine <;> simp [hixl_transfer_async]
  · cases remote_engine <;> cases descriptors <;> simp [hixl_transfer_async]
  · simp [hixl_check_transfer_status]

/-- C8: for each of Initialize, RegisterMem, DeregisterMem, Connect, Disconnect,
TransferAsync and GetTransferStatus, when the facade call has non-null arguments and the
engine call returns a status the facade does not treat as success, the facade reports
failure (`HIXL_STATUS_ERROR`, or -1 for `hixl_check_transfer_status`) and the error
channel afterwards is exactly "<EngineCallName> failed with status: " followed by the
decimal rendering of that status (`toString` of the integer), whatever it held
before; and when the facade call succeeds (`HIXL_STATUS_SUCCESS`, or a non-negative value for
`hixl_check_transfer_status`), the error channel is unchanged. -/
theorem error_channel_overwritten_on_engine_failure {E : Type} (eng : Hixl E)
    (w : World E) (handle : Nat) (hh : handle ≠ 0) :
    (∀ name,
      ((eng.Initialize w.engine name []).1 ≠ eng.codes.SUCCESS →
        ( hixl_initialize eng w handle (some name)).value = HIXL_STATUS_ERROR ∧
        ( hixl_initialize eng w handle (some name)).world.g_last_error =
          "Initialize failed with status: " ++
            toString (eng.Initialize w.engine name []).1) ∧
      (( hixl_initialize eng w handle (some name)).value = HIXL_STATUS_SUCCESS →
        ( hixl_initialize eng w handle (some name)).world.g_last_error = w.g_last_error)) ∧
    (∀ addr len type v,
      ((eng.RegisterMem w.engine ⟨addr, len⟩
          (if type = HIXL_MEM_DEVICE then MemType.MEM_DEVICE else MemType.MEM_HOST)).1 ≠
          eng.codes.SUCCESS →
        (hixl_register_mem eng w handle addr len type (some v)).value = HIXL_STATUS_ERROR ∧
        (hixl_register_mem eng w handle addr len type (some v)).world.g_last_error =
          "RegisterMem failed with status: " ++
            toString (eng.RegisterMem w.engine ⟨addr, len⟩
              (if type = HIXL_MEM_DEVICE then MemType.MEM_DEVICE
                else MemType.MEM_HOST)).1) ∧
      ((hixl_register_mem eng w handle addr len type (some v)).value =
          HIXL_STATUS_SUCCESS →
        (hixl_register_mem eng w handle addr len type (some v)).world.g_last_error =
          w.g_last_error)) ∧
    (∀ mem_handle,
      ((eng.DeregisterMem w.engine mem_handle).1 ≠ eng.codes.SUCCESS →
        (hixl_deregister_mem eng w handle mem_handle).value = HIXL_STATUS_ERROR ∧
        (hixl_deregister_mem eng w handle mem_handle).world.g_last_error =
          "DeregisterMem failed with status: " ++
            toString (eng.DeregisterMem w.engine mem_handle).1) ∧
      ((hixl_deregister_mem eng w handle mem_handle).value = HIXL_STATUS_SUCCESS →
        (hixl_deregister_mem eng w handle mem_handle).world.g_last_error =
          w.g_last_error)) ∧
    (∀ name t,
      ((eng.Connect w.engine name t).1 ≠ eng.codes.SUCCESS →
        (eng.Connect w.engine name t).1 ≠ eng.codes.ALREADY_CONNECTED →
        (hixl_connect eng w handle (some name) t).value = HIXL_STATUS_ERROR ∧
        (hixl_connect eng w handle (some name) t).world.g_last_error =
          "Connect failed with status: " ++ toString (eng.Connect w.engine name t).1) ∧
      ((hixl_connect eng w handle (some name) t).value = HIXL_STATUS_SUCCESS →
        (hixl_connect eng w handle (some name) t).world.g_last_error = w.g_last_error)) ∧
    (∀ name t,
      ((eng.Disconnect w.engine name t).1 ≠ eng.codes.SUCCESS →
        (eng.Disconnect w.engine name t).1 ≠ eng.codes.NOT_CONNECTED →
        (hixl_disconnect eng w handle (some name) t).value = HIXL_STATUS_ERROR ∧
        (hixl_disconnect eng w handle (some name) t).world.g_last_error =
          "Disconnect failed with status: " ++
            toString (eng.Disconnect w.engine name t).1) ∧
      ((hixl_disconnect eng w handle (some name) t).value = HIXL_STATUS_SUCCESS →
        (hixl_disconnect eng w handle (some name) t).world.g_last_error =
          w.g_last_error)) ∧
    (∀ name op descs desc_count v,
      ((eng.TransferAsync w.engine name
          (if op = HIXL_OP_READ then TransferOp.READ else TransferOp.WRITE)
          (transfer_ops_loop descs desc_count 0 [])).1 ≠ eng.codes.SUCCESS →
        (hixl_transfer_async eng w handle (some name) op (some descs) desc_count
          (some v)).value = HIXL_STATUS_ERROR ∧
        (hixl_transfer_async eng w handle (some name) op (some descs) desc_count
          (some v)).world.g_last_error =
          "TransferAsync failed with status: " ++
            toString (eng.TransferAsync w.engine name
              (if op = HIXL_OP_READ then TransferOp.READ else TransferOp.WRITE)
              (transfer_ops_loop descs desc_count 0 [])).1) ∧
      ((hixl_transfer_async eng w handle (some name) op (some descs) desc_count
          (some v)).value = HIXL_STATUS_SUCCESS →
        (hixl_transfer_async eng w handle (some name) op (some descs) desc_count
          (some v)).world.g_last_error = w.g_last_error)) ∧
    (∀ req,
      ((eng.GetTransferStatus w.engine req).1 ≠ eng.codes.SUCCESS →
        (hixl_check_transfer_status eng w handle req).value = -1 ∧
        (hixl_check_transfer_status eng w handle req).world.g_last_error =
          "GetTransferStatus failed with status: " ++
            toString (eng.GetTransferStatus w.engine req).1) ∧
      (0 ≤ (hixl_check_transfer_status eng w handle req).value →
        (hixl_check_transfer_status eng w handle req).world.g_last_error =
          w.g_last_error)) := by
  refine ⟨?_, ?_, ?_, ?_, ?_, ?_, ?_⟩
  · intro name
    refine ⟨fun hs => ?_, ?_⟩
    · simp [ hixl_initialize, to_string, hh, hs]
    · simp only [ hixl_initialize, hh, if_false]
      split_ifs <;> simp
  · intro addr len type v
    refine ⟨fun hs => ?_, ?_⟩
    · simp [hixl_register_mem, to_string, hh, hs]
    · simp only [hixl_register_mem, hh, false_or, reduceCtorEq, if_false]
      split_ifs <;> simp
  · intro mem_handle
    refine ⟨fun hs => ?_, ?_⟩
    · simp [hixl_deregister_mem, to_string, hh, hs]
    · simp only [hixl_deregister_mem, hh, if_false]
      split_ifs <;> simp
  · intro name t
    refine ⟨fun hs ha => ?_, ?_⟩
    · simp [hixl_connect, to_string, hh, hs, ha]
    · simp only [hixl_connect, hh, if_false]
      split_ifs <;> simp
  · intro name t
    refine ⟨fun hs ha => ?_, ?_⟩
    · simp [hixl_disconnect, to_string, hh, hs, ha]
    · simp only [hixl_disconnect, hh, if_false]
      split_ifs <;> simp
  · intro name op descs desc_count v
    refine ⟨fun hs => ?_, ?_⟩
    · simp [hixl_transfer_async, to_string, hh, hs]
    · simp only [hixl_transfer_async, hh, false_or, reduceCtorEq, if_false]
      split_ifs <;> simp
  · intro req
    refine ⟨fun hs => ?_, ?_⟩
    · simp [hixl_check_transfer_status, to_string, hh, hs]
    · simp only [hixl_check_transfer_status, hh, if_false]
      split_ifs <;> simp

/-- Witness for C8 on the simulated engine: a stale message is replaced by
"Connect failed with status: 103901" when the engine's `Connect` times out. -/
theorem error_channel_overwritten_on_engine_failure_witness :
    (1 : Nat) ≠ 0 ∧
    (hixl_connect simEngine { simWorld [] with g_last_error := "stale" } 1
        (some "remote-b") 0).value = HIXL_STATUS_ERROR ∧
    (hixl_connect simEngine { simWorld [] with g_last_error := "stale" } 1
        (some "remote-b") 0).world.g_last_error = "Connect failed with status: 103901" :=
  ⟨by decide,
    ((error_channel_overwritten_on_engine_failure simEngine
      { simWorld [] with g_last_error := "stale" } 1 (by decide)).2.2.2.1
        "remote-b" 0).1 (by decide) (by decide)⟩

/-- One step of the polling sequence: the call after call `n` runs in the world that
call `n` left behind. -/
theorem poll_world_succ {E : Type} (eng : Hixl E) (handle req : Nat) (n : Nat)
    (w : World E) :
    poll_world eng handle req (n + 1) w =
      (hixl_check_transfer_status eng (poll_world eng handle req n w) handle req).world := by
  induction n generalizing w with
  | zero => rfl
  | succ k ih =>
    show poll_world eng handle req (k + 1)
      (hixl_check_transfer_status eng w handle req).world = _
    rw [ih]
    rfl

/-- If the engine keeps a terminal answer, a terminal value returned by one
`hixl_check_transfer_status` call is returned again by the next call. -/
theorem check_transfer_status_terminal_step {E : Type} (eng : Hixl E) (w : World E)
    (handle req : Nat) (v : Int)
    (hstable : ∀ e : E, (eng.GetTransferStatus e req).1 = eng.codes.SUCCESS →
      ((eng.GetTransferStatus e req).2.1 = eng.codes.COMPLETED ∨
        (eng.GetTransferStatus e req).2.1 = eng.codes.FAILED ∨
        (eng.GetTransferStatus e req).2.1 = eng.codes.TIMEOUT) →
      (eng.GetTransferStatus (eng.GetTransferStatus e req).2.2 req).1 = eng.codes.SUCCESS ∧
      (eng.GetTransferStatus (eng.GetTransferStatus e req).2.2 req).2.1 =
        (eng.GetTransferStatus e req).2.1)
    (hv : v = 0 ∨ v = -2 ∨ v = -3)
    (hfirst : (hixl_check_transfer_status eng w handle req).value = v) :
    (hixl_check_transfer_status eng
      (hixl_check_transfer_status eng w handle req).world handle req).value = v := by
  by_cases hh : handle = 0
  · simp [hixl_check_transfer_status, hh] at hfirst
    rcases hv with h | h | h <;> rw [h] at hfirst <;> simp at hfirst
  · have hworld : (hixl_check_transfer_status eng w handle req).world.engine =
        (eng.GetTransferStatus w.engine req).2.2 := by
      simp only [hixl_check_transfer_status, hh, if_false]
      split_ifs <;> rfl
    suffices key : ∀ W : World E, W.engine = (eng.GetTransferStatus w.engine req).2.2 →
        (hixl_check_transfer_status eng W handle req).value = v from key _ hworld
    intro W hW
    by_cases hs : (eng.GetTransferStatus w.engine req).1 = eng.codes.SUCCESS
    · by_cases hc : (eng.GetTransferStatus w.engine req).2.1 = eng.codes.COMPLETED
      · obtain ⟨s1, s2⟩ := hstable w.engine hs (Or.inl hc)
        have hv0 : v = 0 := by
          rw [← hfirst]; simp [hixl_check_transfer_status, hh, hs, hc]
        rw [hv0]
        simp [hixl_check_transfer_status, hh, hW, s1, s2, hc]
      · by_cases hw : (eng.GetTransferStatus w.engine req).2.1 = eng.codes.WAITING
        · have hc1 : ¬eng.codes.WAITING = eng.codes.COMPLETED := fun h => hc (hw.trans h)
          have hv1 : v = 1 := by
            rw [← hfirst]; simp [hixl_check_transfer_status, hh, hs, hw, hc1]
          rcases hv with h | h | h <;> rw [h] at hv1 <;> simp at hv1
        · by_cases hf : (eng.GetTransferStatus w.engine req).2.1 = eng.codes.FAILED
          · obtain ⟨s1, s2⟩ := hstable w.engine hs (Or.inr (Or.inl hf))
            have hc1 : ¬eng.codes.FAILED = eng.codes.COMPLETED := fun h => hc (hf.trans h)
            have hw1 : ¬eng.codes.FAILED = eng.codes.WAITING := fun h => hw (hf.trans h)
            have hv2 : v = -2 := by
              rw [← hfirst]; simp [hixl_check_transfer_status, hh, hs, hf, hc1, hw1]
            rw [hv2]
            simp [hixl_check_transfer_status, hh, hW, s1, s2, hf, hc1, hw1]
          · by_cases ht : (eng.GetTransferStatus w.engine req).2.1 = eng.codes.TIMEOUT
            · obtain ⟨s1, s2⟩ := hstable w.engine hs (Or.inr (Or.inr ht))
              have hc1 : ¬eng.codes.TIMEOUT = eng.codes.COMPLETED := fun h => hc (ht.trans h)
              have hw1 : ¬eng.codes.TIMEOUT = eng.codes.WAITING := fun h => hw (ht.trans h)
              have hf1 : ¬eng.codes.TIMEOUT = eng.codes.FAILED := fun h => hf (ht.trans h)
              have hv3 : v = -3 := by
                rw [← hfirst]
                simp [hixl_check_transfer_status, hh, hs, ht, hc1, hw1, hf1]
              rw [hv3]
              simp [hixl_check_transfer_status, hh, hW, s1, s2, ht, hc1, hw1, hf1]
            · have hv4 : v = -1 := by
                rw [← hfirst]; simp [hixl_check_transfer_status, hh, hs, hc, hw, hf, ht]
              rcases hv with h | h | h <;> rw [h] at hv4 <;> simp at hv4
    · have hv4 : v = -1 := by
        rw [← hfirst]; simp [hixl_check_transfer_status, hh, hs]
      rcases hv with h | h | h <;> rw [h] at hv4 <;> simp at hv4

/-- C9, counterexample: against an engine whose status query alternates, the request
handle 2 obtained from a successful `hixl_transfer_async` is first reported as 0
(COMPLETED) and by the next `hixl_check_transfer_status` call as 1 (WAITING). -/
theorem check_transfer_status_reverts_to_waiting :
    (hixl_transfer_async flipEngine (simWorld ["remote-b"]) 1 (some "remote-b")
        HIXL_OP_WRITE (some simDescs) 1 (some 0)).value = HIXL_STATUS_SUCCESS ∧
    (hixl_transfer_async flipEngine (simWorld ["remote-b"]) 1 (some "remote-b")
        HIXL_OP_WRITE (some simDescs) 1 (some 0)).slot = some 2 ∧
    poll_value flipEngine 1 2 0
      (hixl_transfer_async flipEngine (simWorld ["remote-b"]) 1 (some "remote-b")
        HIXL_OP_WRITE (some simDescs) 1 (some 0)).world = 0 ∧
    poll_value flipEngine 1 2 1
      (hixl_transfer_async flipEngine (simWorld ["remote-b"]) 1 (some "remote-b")
        HIXL_OP_WRITE (some simDescs) 1 (some 0)).world = 1 := by
  decide

/-- C9, amended: the facade keeps no transfer state, so stability is the engine's.  If
the engine's `GetTransferStatus`, once it has succeeded with a terminal status
(COMPLETED, FAILED or TIMEOUT) for a request, answers the next query for that request
with SUCCESS and the same status, then in any sequence of consecutive
`hixl_check_transfer_status` calls on that request, once a call has returned a terminal
value (0, -2 or -3), every later call returns that same value. -/
theorem check_transfer_status_terminal_stable {E : Type} (eng : Hixl E) (w : World E)
    (handle req : Nat) (n k : Nat)
    (hstable : ∀ e : E, (eng.GetTransferStatus e req).1 = eng.codes.SUCCESS →
      ((eng.GetTransferStatus e req).2.1 = eng.codes.COMPLETED ∨
        (eng.GetTransferStatus e req).2.1 = eng.codes.FAILED ∨
        (eng.GetTransferStatus e req).2.1 = eng.codes.TIMEOUT) →
      (eng.GetTransferStatus (eng.GetTransferStatus e req).2.2 req).1 = eng.codes.SUCCESS ∧
      (eng.GetTransferStatus (eng.GetTransferStatus e req).2.2 req).2.1 =
        (eng.GetTransferStatus e req).2.1)
    (hterminal : poll_value eng handle req n w = 0 ∨ poll_value eng handle req n w = -2 ∨
      poll_value eng handle req n w = -3) :
    poll_value eng handle req (n + k) w = poll_value eng handle req n w := by
  induction k with
  | zero => rfl
  | succ j ih =>
    have hstep := check_transfer_status_terminal_step eng
      (poll_world eng handle req (n + j) w) handle req (poll_value eng handle req n w)
      hstable hterminal ih
    show (hixl_check_transfer_status eng (poll_world eng handle req (n + j + 1) w)
      handle req).value = _
    rw [poll_world_succ]
    exact hstep

/-- Witness for the amended C9 on the simulated engine: the third poll (number 2) of
request 5 returns 0, and so does the eighth (number 7). -/
theorem check_transfer_status_terminal_stable_witness :
    poll_value simEngine 1 5 2 (simWorld []) = 0 ∧
    poll_value simEngine 1 5 (2 + 5) (simWorld []) =
      poll_value simEngine 1 5 2 (simWorld []) :=
  ⟨by decide,
    check_transfer_status_terminal_stable simEngine (simWorld []) 1 5 2 5
      (by
        intro e hs ht
        simp only [simEngine, simCodes] at hs ht ⊢
        split_ifs at hs ht ⊢ <;> simp_all)
      (Or.inl (by decide))⟩

end MonarchHixl

/-! ## Theorems about the HCCL bridge -/

namespace HcclSys

/-- Reasoning rule for one `LOOKUP_HCCL_ENTRY`. -/
theorem LOOKUP_HCCL_ENTRY_rule (P : HcclAPI → Prop) (ld : Loader) (handle : Nat)
    (name : String) (store : Nat → HcclAPI) (rest : HcclAPI → HcclAPI)
    (hnull : ld.dlsym handle name = 0 →
      P { store (ld.dlsym handle name) with init_result_ := ld.codes.HCCL_E_INTERNAL })
    (hfound : ld.dlsym handle name ≠ 0 → P (rest (store (ld.dlsym handle name)))) :
    P (LOOKUP_HCCL_ENTRY ld handle name store rest) := by
  unfold LOOKUP_HCCL_ENTRY
  by_cases h : ld.dlsym handle name = 0
  · simp only [h, if_true]
    simpa [h] using hnull h
  · simp only [h, if_false]
    exact hfound h

/-- The table built by `create_hccl_api` is well formed. -/
theorem create_hccl_api_ok (ld : Loader) : TableOk ld (create_hccl_api ld) := by
  unfold create_hccl_api
  by_cases hh : open_libhccl ld = 0
  · simp only [hh, if_true]
    exact Or.inl rfl
  · simp only [hh, if_false]
    refine LOOKUP_HCCL_ENTRY_rule (TableOk ld) _ _ _ _ _ (fun _ => Or.inl rfl)
      (fun h1 => ?_)
    dsimp only
    refine LOOKUP_HCCL_ENTRY_rule (TableOk ld) _ _ _ _ _ (fun _ => Or.inl rfl)
      (fun h2 => ?_)
    dsimp only
    refine LOOKUP_HCCL_ENTRY_rule (TableOk ld) _ _ _ _ _ (fun _ => Or.inl rfl)
      (fun h3 => ?_)
    dsimp only
    refine LOOKUP_HCCL_ENTRY_rule (TableOk ld) _ _ _ _ _ (fun _ => Or.inl rfl)
      (fun h4 => ?_)
    dsimp only
    refine LOOKUP_HCCL_ENTRY_rule (TableOk ld) _ _ _ _ _ (fun _ => Or.inl rfl)
      (fun h5 => ?_)
    dsimp only
    refine LOOKUP_HCCL_ENTRY_rule (TableOk ld) _ _ _ _ _ (fun _ => Or.inl rfl)
      (fun h6 => ?_)
    dsimp only
    refine LOOKUP_HCCL_ENTRY_rule (TableOk ld) _ _ _ _ _ (fun _ => Or.inl rfl)
      (fun h7 => ?_)
    dsimp only
    refine LOOKUP_HCCL_ENTRY_rule (TableOk ld) _ _ _ _ _ (fun _ => Or.inl rfl)
      (fun h8 => ?_)
    dsimp only
    refine LOOKUP_HCCL_ENTRY_rule (TableOk ld) _ _ _ _ _ (fun _ => Or.inl rfl)
      (fun h9 => ?_)
    dsimp only
    refine LOOKUP_HCCL_ENTRY_rule (TableOk ld) _ _ _ _ _ (fun _ => Or.inl rfl)
      (fun h10 => ?_)
    dsimp only
    refine LOOKUP_HCCL_ENTRY_rule (TableOk ld) _ _ _ _ _ (fun _ => Or.inl rfl)
      (fun h11 => ?_)
    dsimp only
    refine LOOKUP_HCCL_ENTRY_rule (TableOk ld) _ _ _ _ _ (fun _ => Or.inl rfl)
      (fun h12 => ?_)
    dsimp only
    refine LOOKUP_HCCL_ENTRY_rule (TableOk ld) _ _ _ _ _ (fun _ => Or.inl rfl)
      (fun h13 => ?_)
    dsimp only
    refine LOOKUP_HCCL_ENTRY_rule (TableOk ld) _ _ _ _ _ (fun _ => Or.inl rfl)
      (fun h14 => ?_)
    dsimp only
    refine LOOKUP_HCCL_ENTRY_rule (TableOk ld) _ _ _ _ _ (fun _ => Or.inl rfl)
      (fun h15 => ?_)
    dsimp only
    refine LOOKUP_HCCL_ENTRY_rule (TableOk ld) _ _ _ _ _ (fun _ => Or.inl rfl)
      (fun h16 => ?_)
    dsimp only
    refine LOOKUP_HCCL_ENTRY_rule (TableOk ld) _ _ _ _ _ (fun _ => Or.inl rfl)
      (fun h17 => ?_)
    dsimp only
    refine LOOKUP_HCCL_ENTRY_rule (TableOk ld) _ _ _ _ _ (fun _ => Or.inl rfl)
      (fun h18 => ?_)
    dsimp only
    refine LOOKUP_HCCL_ENTRY_rule (TableOk ld) _ _ _ _ _ (fun _ => Or.inl rfl)
      (fun h19 => ?_)
    dsimp only
    refine Or.inr ⟨rfl, hh, ?_, ?_⟩
    · simp [HcclAPI.pointers, hccl_entries]
    · simp [HcclAPI.pointers]
      exact ⟨h1, h2, h3, h4, h5, h6, h7, h8,
        h9, h10, h11, h12, h13, h14, h15, h16,
        h17, h18, h19⟩

/-- A table whose load result is not `HCCL_SUCCESS` has load result `HCCL_E_INTERNAL`. -/
theorem init_result_of_ne_success (ld : Loader)
    (hs : (HcclAPI.get ld).init_result_ ≠ ld.codes.HCCL_SUCCESS) :
    (HcclAPI.get ld).init_result_ = ld.codes.HCCL_E_INTERNAL := by
  rcases create_hccl_api_ok ld with h | h
  · exact h
  · exact absurd h.1 hs

/-- A table whose load result is `HCCL_SUCCESS` holds the resolved, non-null pointers. -/
theorem pointers_of_success (ld : Loader)
    (hne : ld.codes.HCCL_SUCCESS ≠ ld.codes.HCCL_E_INTERNAL)
    (hs : (HcclAPI.get ld).init_result_ = ld.codes.HCCL_SUCCESS) :
    open_libhccl ld ≠ 0 ∧
    (HcclAPI.get ld).pointers = hccl_entries.map (ld.dlsym (open_libhccl ld)) ∧
    ∀ p ∈ (HcclAPI.get ld).pointers, p ≠ 0 := by
  rcases create_hccl_api_ok ld with h | h
  · exact absurd (hs.symm.trans h) hne
  · exact h.2

/-- The three `dlopen` attempts yield null exactly when each of them does. -/
theorem open_libhccl_eq_zero (ld : Loader)
    (h1 : ld.dlopen "libhccl.so" (RTLD_LAZY ||| RTLD_NOLOAD) = 0)
    (h2 : ld.dlopen "libhccl.so" RTLD_LAZY = 0)
    (h3 : ld.dlopen "/usr/local/Ascend/ascend-toolkit/latest/lib64/libhccl.so" RTLD_LAZY =
      0) :
    open_libhccl ld = 0 := by
  simp [open_libhccl, h1, h2, h3]

/-- The body of a wrapper guarded by `GET_HCCL_API` meets `Guarded`. -/
theorem guarded_wrapper (ld : Loader) (name : String) (fp : Nat) (args : List Int)
    (hfp : (HcclAPI.get ld).init_result_ = ld.codes.HCCL_SUCCESS →
      fp ≠ 0 ∧ fp = ld.dlsym (open_libhccl ld) name) :
    Guarded ld name fp args
      (if (HcclAPI.get ld).init_result_ ≠ ld.codes.HCCL_SUCCESS then
        Forward.returned (HcclAPI.get ld).init_result_
      else call_through ld fp args) := by
  by_cases hs : (HcclAPI.get ld).init_result_ = ld.codes.HCCL_SUCCESS
  · obtain ⟨h0, h1⟩ := hfp hs
    right
    refine ⟨h0, h1, ?_⟩
    simp [hs, call_through, h0]
  · left
    rw [if_pos hs, init_result_of_ne_success ld hs]

/-- C10: for every outcome of library loading and symbol lookup, with `HCCL_SUCCESS` and
`HCCL_E_INTERNAL` different codes, the table built by `create_hccl_api` satisfies:
`init_result_ = HCCL_SUCCESS` implies that the library opened and all 19 function pointers
are the non-null addresses `dlsym` returned; if all `dlopen` attempts fail, or the lookup
of any one of the 19 entries returns null, then `init_result_ = HCCL_E_INTERNAL`.  Hence
each of the 18 wrappers guarded by `GET_HCCL_API` either returns `HCCL_E_INTERNAL` without
calling through, or calls its non-null resolved pointer with the wrapper's own arguments
and returns the result unchanged; and `HcclGetErrorString` returns
"HCCL library not initialized" when loading failed and never calls a null pointer. -/
theorem hccl_table_resolved_or_internal_error (ld : Loader)
    (hne : ld.codes.HCCL_SUCCESS ≠ ld.codes.HCCL_E_INTERNAL) :
    ((HcclAPI.get ld).init_result_ = ld.codes.HCCL_SUCCESS →
      open_libhccl ld ≠ 0 ∧
      (HcclAPI.get ld).pointers.length = 19 ∧
      (HcclAPI.get ld).pointers = hccl_entries.map (ld.dlsym (open_libhccl ld)) ∧
      ∀ p ∈ (HcclAPI.get ld).pointers, p ≠ 0) ∧
    (ld.dlopen "libhccl.so" (RTLD_LAZY ||| RTLD_NOLOAD) = 0 →
      ld.dlopen "libhccl.so" RTLD_LAZY = 0 →
      ld.dlopen "/usr/local/Ascend/ascend-toolkit/latest/lib64/libhccl.so" RTLD_LAZY = 0 →
      (HcclAPI.get ld).init_result_ = ld.codes.HCCL_E_INTERNAL) ∧
    (∀ name ∈ hccl_entries, ld.dlsym (open_libhccl ld) name = 0 →
      (HcclAPI.get ld).init_result_ = ld.codes.HCCL_E_INTERNAL) ∧
    (∀ clusterInfo rank comm : Int,
      Guarded ld "HcclCommInitClusterInfo" (HcclAPI.get ld).HcclCommInitClusterInfo_
        [clusterInfo, rank, comm]
        (HcclCommInitClusterInfo ld clusterInfo rank comm)) ∧
    (∀ ndev devices comms : Int,
      Guarded ld "HcclCommInitAll" (HcclAPI.get ld).HcclCommInitAll_
        [ndev, devices, comms]
        (HcclCommInitAll ld ndev devices comms)) ∧
    (∀ rootInfo : Int,
      Guarded ld "HcclGetRootInfo" (HcclAPI.get ld).HcclGetRootInfo_
        [rootInfo]
        (HcclGetRootInfo ld rootInfo)) ∧
    (∀ nRanks rootInfo rank comm : Int,
      Guarded ld "HcclCommInitRootInfo" (HcclAPI.get ld).HcclCommInitRootInfo_
        [nRanks, rootInfo, rank, comm]
        (HcclCommInitRootInfo ld nRanks rootInfo rank comm)) ∧
    (∀ comm : Int,
      Guarded ld "HcclCommDestroy" (HcclAPI.get ld).HcclCommDestroy_
        [comm]
        (HcclCommDestroy ld comm)) ∧
    (∀ comm rankSize : Int,
      Guarded ld "HcclGetRankSize" (HcclAPI.get ld).HcclGetRankSize_
        [comm, rankSize]
        (HcclGetRankSize ld comm rankSize)) ∧
    (∀ comm rank : Int,
      Guarded ld "HcclGetRankId" (HcclAPI.get ld).HcclGetRankId_
        [comm, rank]
        (HcclGetRankId ld comm rank)) ∧
    (∀ sendBuf recvBuf count dataType op comm stream : Int,
      Guarded ld "HcclAllReduce" (HcclAPI.get ld).HcclAllReduce_
        [sendBuf, recvBuf, count, dataType, op, comm, stream]
        (HcclAllReduce ld sendBuf recvBuf count dataType op comm stream)) ∧
    (∀ buf count dataType root comm stream : Int,
      Guarded ld "HcclBroadcast" (HcclAPI.get ld).HcclBroadcast_
        [buf, count, dataType, root, comm, stream]
        (HcclBroadcast ld buf count dataType root comm stream)) ∧
    (∀ sendBuf recvBuf sendCount dataType comm stream : Int,
      Guarded ld "HcclAllGather" (HcclAPI.get ld).HcclAllGather_
        [sendBuf, recvBuf, sendCount, dataType, comm, stream]
        (HcclAllGather ld sendBuf recvBuf sendCount dataType comm stream)) ∧
    (∀ sendBuf recvBuf recvCount dataType op comm stream : Int,
      Guarded ld "HcclReduceScatter" (HcclAPI.get ld).HcclReduceScatter_
        [sendBuf, recvBuf, recvCount, dataType, op, comm, stream]
        (HcclReduceScatter ld sendBuf recvBuf recvCount dataType op comm stream)) ∧
    (∀ sendBuf recvBuf count dataType op root comm stream : Int,
      Guarded ld "HcclReduce" (HcclAPI.get ld).HcclReduce_
        [sendBuf, recvBuf, count, dataType, op, root, comm, stream]
        (HcclReduce ld sendBuf recvBuf count dataType op root comm stream)) ∧
    (∀ sendBuf sendCount sendType recvBuf recvCount recvType comm stream : Int,
      Guarded ld "HcclAlltoAll" (HcclAPI.get ld).HcclAlltoAll_
        [sendBuf, sendCount, sendType, recvBuf, recvCount, recvType, comm, stream]
        (HcclAlltoAll ld sendBuf sendCount sendType recvBuf recvCount recvType comm stream)) ∧
    (∀ sendBuf sendCounts sdispls sendType recvBuf recvCounts rdispls recvType comm stream : Int,
      Guarded ld "HcclAlltoAllV" (HcclAPI.get ld).HcclAlltoAllV_
        [sendBuf, sendCounts, sdispls, sendType, recvBuf, recvCounts, rdispls, recvType, comm, stream]
        (HcclAlltoAllV ld sendBuf sendCounts sdispls sendType recvBuf recvCounts rdispls recvType comm stream)) ∧
    (∀ sendBuf count dataType destRank comm stream : Int,
      Guarded ld "HcclSend" (HcclAPI.get ld).HcclSend_
        [sendBuf, count, dataType, destRank, comm, stream]
        (HcclSend ld sendBuf count dataType destRank comm stream)) ∧
    (∀ recvBuf count dataType srcRank comm stream : Int,
      Guarded ld "HcclRecv" (HcclAPI.get ld).HcclRecv_
        [recvBuf, count, dataType, srcRank, comm, stream]
        (HcclRecv ld recvBuf count dataType srcRank comm stream)) ∧
    (∀ comm stream : Int,
      Guarded ld "HcclBarrier" (HcclAPI.get ld).HcclBarrier_
        [comm, stream]
        (HcclBarrier ld comm stream)) ∧
    (∀ comm asyncError : Int,
      Guarded ld "HcclGetCommAsyncError" (HcclAPI.get ld).HcclGetCommAsyncError_
        [comm, asyncError]
        (HcclGetCommAsyncError ld comm asyncError)) ∧
    (∀ code : Int,
      ((HcclAPI.get ld).init_result_ ≠ ld.codes.HCCL_SUCCESS →
        HcclGetErrorString ld code = Forward.returned "HCCL library not initialized") ∧
      ((HcclAPI.get ld).init_result_ = ld.codes.HCCL_SUCCESS →
        (HcclAPI.get ld).HcclGetErrorString_ ≠ 0 ∧
        HcclGetErrorString ld code =
          Forward.called (HcclAPI.get ld).HcclGetErrorString_ [code]
            (ld.invoke_str (HcclAPI.get ld).HcclGetErrorString_ [code]))) := by
  have hfields : (HcclAPI.get ld).init_result_ = ld.codes.HCCL_SUCCESS →
      ((HcclAPI.get ld).HcclCommInitClusterInfo_ ≠ 0 ∧
        (HcclAPI.get ld).HcclCommInitClusterInfo_ = ld.dlsym (open_libhccl ld) "HcclCommInitClusterInfo") ∧
      ((HcclAPI.get ld).HcclCommInitAll_ ≠ 0 ∧
        (HcclAPI.get ld).HcclCommInitAll_ = ld.dlsym (open_libhccl ld) "HcclCommInitAll") ∧
      ((HcclAPI.get ld).HcclGetRootInfo_ ≠ 0 ∧
        (HcclAPI.get ld).HcclGetRootInfo_ = ld.dlsym (open_libhccl ld) "HcclGetRootInfo") ∧
      ((HcclAPI.get ld).HcclCommInitRootInfo_ ≠ 0 ∧
        (HcclAPI.get ld).HcclCommInitRootInfo_ = ld.dlsym (open_libhccl ld) "HcclCommInitRootInfo") ∧
      ((HcclAPI.get ld).HcclCommDestroy_ ≠ 0 ∧
        (HcclAPI.get ld).HcclCommDestroy_ = ld.dlsym (open_libhccl ld) "HcclCommDestroy") ∧
      ((HcclAPI.get ld).HcclGetRankSize_ ≠ 0 ∧
        (HcclAPI.get ld).HcclGetRankSize_ = ld.dlsym (open_libhccl ld) "HcclGetRankSize") ∧
      ((HcclAPI.get ld).HcclGetRankId_ ≠ 0 ∧
        (HcclAPI.get ld).HcclGetRankId_ = ld.dlsym (open_libhccl ld) "HcclGetRankId") ∧
      ((HcclAPI.get ld).HcclAllReduce_ ≠ 0 ∧
        (HcclAPI.get ld).HcclAllReduce_ = ld.dlsym (open_libhccl ld) "HcclAllReduce") ∧
      ((HcclAPI.get ld).HcclBroadcast_ ≠ 0 ∧
        (HcclAPI.get ld).HcclBroadcast_ = ld.dlsym (open_libhccl ld) "HcclBroadcast") ∧
      ((HcclAPI.get ld).HcclAllGather_ ≠ 0 ∧
        (HcclAPI.get ld).HcclAllGather_ = ld.dlsym (open_libhccl ld) "HcclAllGather") ∧
      ((HcclAPI.get ld).HcclReduceScatter_ ≠ 0 ∧
        (HcclAPI.get ld).HcclReduceScatter_ = ld.dlsym (open_libhccl ld) "HcclReduceScatter") ∧
      ((HcclAPI.get ld).HcclReduce_ ≠ 0 ∧
        (HcclAPI.get ld).HcclReduce_ = ld.dlsym (open_libhccl ld) "HcclReduce") ∧
      ((HcclAPI.get ld).HcclAlltoAll_ ≠ 0 ∧
        (HcclAPI.get ld).HcclAlltoAll_ = ld.dlsym (open_libhccl ld) "HcclAlltoAll") ∧
      ((HcclAPI.get ld).HcclAlltoAllV_ ≠ 0 ∧
        (HcclAPI.get ld).HcclAlltoAllV_ = ld.dlsym (open_libhccl ld) "HcclAlltoAllV") ∧
      ((HcclAPI.get ld).HcclSend_ ≠ 0 ∧
        (HcclAPI.get ld).HcclSend_ = ld.dlsym (open_libhccl ld) "HcclSend") ∧
      ((HcclAPI.get ld).HcclRecv_ ≠ 0 ∧
        (HcclAPI.get ld).HcclRecv_ = ld.dlsym (open_libhccl ld) "HcclRecv") ∧
      ((HcclAPI.get ld).HcclBarrier_ ≠ 0 ∧
        (HcclAPI.get ld).HcclBarrier_ = ld.dlsym (open_libhccl ld) "HcclBarrier") ∧
      ((HcclAPI.get ld).HcclGetCommAsyncError_ ≠ 0 ∧
        (HcclAPI.get ld).HcclGetCommAsyncError_ = ld.dlsym (open_libhccl ld) "HcclGetCommAsyncError") ∧
      ((HcclAPI.get ld).HcclGetErrorString_ ≠ 0 ∧
        (HcclAPI.get ld).HcclGetErrorString_ = ld.dlsym (open_libhccl ld) "HcclGetErrorString") := by
    intro hs
    obtain ⟨-, hp, hnz⟩ := pointers_of_success ld hne hs
    simp only [HcclAPI.pointers, hccl_entries, List.map, List.cons.injEq, and_true] at hp
    simp only [HcclAPI.pointers, List.mem_cons, List.mem_singleton, forall_eq_or_imp,
      forall_eq] at hnz
    obtain ⟨e1, e2, e3, e4, e5, e6, e7, e8, e9, e10, e11, e12, e13, e14, e15, e16, e17, e18, e19⟩ := hp
    obtain ⟨n1, n2, n3, n4, n5, n6, n7, n8, n9, n10, n11, n12, n13, n14, n15, n16, n17, n18, n19, -⟩ := hnz
    exact ⟨⟨n1, e1⟩, ⟨n2, e2⟩, ⟨n3, e3⟩, ⟨n4, e4⟩, ⟨n5, e5⟩, ⟨n6, e6⟩, ⟨n7, e7⟩, ⟨n8, e8⟩, ⟨n9, e9⟩, ⟨n10, e10⟩, ⟨n11, e11⟩, ⟨n12, e12⟩, ⟨n13, e13⟩, ⟨n14, e14⟩, ⟨n15, e15⟩, ⟨n16, e16⟩, ⟨n17, e17⟩, ⟨n18, e18⟩, ⟨n19, e19⟩⟩
  refine ⟨?_, ?_, ?_, ?_, ?_, ?_, ?_, ?_, ?_, ?_, ?_, ?_, ?_, ?_, ?_, ?_, ?_, ?_, ?_, ?_, ?_, ?_⟩
  · intro hs
    obtain ⟨ho, hp, hnz⟩ := pointers_of_success ld hne hs
    exact ⟨ho, rfl, hp, hnz⟩
  · intro h1 h2 h3
    have ho := open_libhccl_eq_zero ld h1 h2 h3
    by_contra hc
    rcases create_hccl_api_ok ld with h | h
    · exact hc h
    · exact h.2.1 ho
  · intro name hmem hnull
    by_contra hc
    rcases create_hccl_api_ok ld with h | h
    · exact hc h
    · obtain ⟨-, -, hp, hnz⟩ := h
      refine hnz (ld.dlsym (open_libhccl ld) name) ?_ hnull
      rw [hp]
      exact List.mem_map_of_mem _ hmem
  · intro clusterInfo rank comm
    exact guarded_wrapper ld _ _ _ (fun hs => (hfields hs).1)
  · intro ndev devices comms
    exact guarded_wrapper ld _ _ _ (fun hs => (hfields hs).2.1)
  · intro rootInfo
    exact guarded_wrapper ld _ _ _ (fun hs => (hfields hs).2.2.1)
  · intro nRanks rootInfo rank comm
    exact guarded_wrapper ld _ _ _ (fun hs => (hfields hs).2.2.2.1)
  · intro comm
    exact guarded_wrapper ld _ _ _ (fun hs => (hfields hs).2.2.2.2.1)
  · intro comm rankSize
    exact guarded_wrapper ld _ _ _ (fun hs => (hfields hs).2.2.2.2.2.1)
  · intro comm rank
    exact guarded_wrapper ld _ _ _ (fun hs => (hfields hs).2.2.2.2.2.2.1)
  · intro sendBuf recvBuf count dataType op comm stream
    exact guarded_wrapper ld _ _ _ (fun hs => (hfields hs).2.2.2.2.2.2.2.1)
  · intro buf count dataType root comm stream
    exact guarded_wrapper ld _ _ _ (fun hs => (hfields hs).2.2.2.2.2.2.2.2.1)
  · intro sendBuf recvBuf sendCount dataType comm stream
    exact guarded_wrapper ld _ _ _ (fun hs => (hfields hs).2.2.2.2.2.2.2.2.2.1)
  · intro sendBuf recvBuf recvCount dataType op comm stream
    exact guarded_wrapper ld _ _ _ (fun hs => (hfields hs).2.2.2.2.2.2.2.2.2.2.1)
  · intro sendBuf recvBuf count dataType op root comm stream
    exact guarded_wrapper ld _ _ _ (fun hs => (hfields hs).2.2.2.2.2.2.2.2.2.2.2.1)
  · intro sendBuf sendCount sendType recvBuf recvCount recvType comm stream
    exact guarded_wrapper ld _ _ _ (fun hs => (hfields hs).2.2.2.2.2.2.2.2.2.2.2.2.1)
  · intro sendBuf sendCounts sdispls sendType recvBuf recvCounts rdispls recvType comm stream
    exact guarded_wrapper ld _ _ _ (fun hs => (hfields hs).2.2.2.2.2.2.2.2.2.2.2.2.2.1)
  · intro sendBuf count dataType destRank comm stream
    exact guarded_wrapper ld _ _ _ (fun hs => (hfields hs).2.2.2.2.2.2.2.2.2.2.2.2.2.2.1)
  · intro recvBuf count dataType srcRank comm stream
    exact guarded_wrapper ld _ _ _ (fun hs => (hfields hs).2.2.2.2.2.2.2.2.2.2.2.2.2.2.2.1)
  · intro comm stream
    exact guarded_wrapper ld _ _ _ (fun hs => (hfields hs).2.2.2.2.2.2.2.2.2.2.2.2.2.2.2.2.1)
  · intro comm asyncError
    exact guarded_wrapper ld _ _ _ (fun hs => (hfields hs).2.2.2.2.2.2.2.2.2.2.2.2.2.2.2.2.2.1)
  · intro code
    refine ⟨fun hs => ?_, fun hs => ?_⟩
    · simp [HcclGetErrorString, hs]
    · have h19 := (hfields hs).2.2.2.2.2.2.2.2.2.2.2.2.2.2.2.2.2.2
      exact ⟨h19.1, by simp [HcclGetErrorString, hs, h19.1]⟩

/-- Witness for C10: with the simulated loader the table loads, so all 19 pointers are
non-null; with a library that lacks `HcclBarrier` the wrapper `HcclBarrier` returns
`HCCL_E_INTERNAL` (4) without calling through. -/
theorem hccl_table_resolved_or_internal_error_witness :
    simLoader.codes.HCCL_SUCCESS ≠ simLoader.codes.HCCL_E_INTERNAL ∧
    (HcclAPI.get simLoader).init_result_ = simLoader.codes.HCCL_SUCCESS ∧
    (∀ p ∈ (HcclAPI.get simLoader).pointers, p ≠ 0) ∧
    HcclBarrier brokenLoader 1 2 = Forward.returned 4 :=
  ⟨by decide, by decide,
    ((hccl_table_resolved_or_internal_error simLoader (by decide)).1 (by decide)).2.2.2,
    by decide⟩

end HcclSys
